import Mathlib

/-!
Verification development for the embedded FTP server (ftp_server.c, ftp_config.h,
ftp_server.h). C char buffers are modelled as lists of byte values (`Str`), machine
integers as `Nat` with explicit `% 2 ^ w` where overflow can matter, and fallible
external collaborators (filesystem, TCP stack) as oracle records. Line numbers in
doc comments refer to ftp_server.c.
-/

namespace FtpServer

/-- Byte strings: C `char` buffers are lists of byte values. -/
abbrev Str := List Nat

/-- ASCII code of the path separator `/`. -/
def SLASH : Nat := 47

/-- ASCII code of the space character. -/
def SPACE : Nat := 32

/-- Configured buffer multiplier, ftp_config.h (`FTP_BUF_SIZE_MULT`, default 32). -/
def FTP_BUF_SIZE_MULT : Nat := 32

/-- Transfer buffer capacity, ftp_server.c:47-48 (`FTP_BUF_SIZE_MIN * FTP_BUF_SIZE_MULT`). -/
def FTP_BUF_SIZE : Nat := 1024 * FTP_BUF_SIZE_MULT

/-- Command buffer capacity, ftp_server.c:40. -/
def FTP_CMD_SIZE : Nat := 5

/-- Base passive data port, ftp_config.h:52. -/
def FTP_DATA_PORT : Nat := 55600

/-- Passive port increment offset, ftp_server.c:42. -/
def PORT_INCREMENT_OFFSET : Nat := 25

/-! ## Path utility (ftp_server.c:479-550) -/

/-- Embedding of `path_up_a_level` (ftp_server.c:479-499): when the path contains a
slash, clear trailing characters until the last slash remains at the end, then drop
that slash as well unless the string has become the single-character root. -/
def path_up_a_level (path : Str) : Str :=
  if SLASH ∈ path then
    let q := (path.reverse.dropWhile (fun c => c ≠ SLASH)).reverse
    if q.length > 1 then q.dropLast else q
  else path

/-- Embedding of `path_build` (ftp_server.c:512-550), parametric in the capacity
`FTP_CWD_SIZE` (= `_MAX_LFN + 8`, fixed by the FatFs configuration). Returns the
success flag (length check against the capacity, ftp_server.c:545) and the new path
value. The C `strncat` calls never truncate here because the parameter buffer is
smaller than the capacity bound, so unbounded concatenation models the string value. -/
def path_build (cwdMax : Nat) (current ftp_param : Str) : Bool × Str :=
  let built :=
    if ftp_param = [SLASH] ∨ ftp_param.length = 0 then [SLASH]
    else if ftp_param = [46, 46] then path_up_a_level current
    else if ftp_param.head? ≠ some SLASH then
      (if current.getLast? ≠ some SLASH then current ++ [SLASH] else current) ++ ftp_param
    else ftp_param
  let built2 := if built.getLast? = some SLASH ∧ built.length > 2 then built.dropLast else built
  (built2.length < cwdMax, built2)

/-! ## Date/time codec (ftp_server.c:216-254) -/

/-- Two decimal digits, zero padded; equals C `%02d` output for `n < 100`
(every argument passed by the encoder is below 100). -/
def pad2 (n : Nat) : Str := [48 + n / 10, 48 + n % 10]

/-- Four decimal digits, zero padded; equals C `%04d` output for `n < 10000`
(the year argument is at most 2107). -/
def pad4 (n : Nat) : Str := [48 + n / 1000, 48 + n / 100 % 10, 48 + n / 10 % 10, 48 + n % 10]

/-- Embedding of `data_time_to_str` (ftp_server.c:216-220): format a FAT 16-bit date
and 16-bit time as the 14 digits YYYYMMDDHHMMSS. -/
def data_time_to_str (date time : Nat) : Str :=
  pad4 (((date &&& 0xFE00) >>> 9) + 1980) ++
  pad2 ((date &&& 0x01E0) >>> 5) ++
  pad2 (date &&& 0x001F) ++
  pad2 ((time &&& 0xF800) >>> 11) ++
  pad2 ((time &&& 0x07E0) >>> 5) ++
  pad2 ((time &&& 0x001F) <<< 1)

/-- C `isdigit` on a byte (ASCII). -/
def isdigitB (b : Nat) : Bool := 48 ≤ b ∧ b ≤ 57

/-- Accumulator loop of a C `atoi` restricted to an unsigned digit prefix. -/
def atoiDigits_go (acc : Nat) : Str → Nat
  | [] => acc
  | b :: r => if isdigitB b then atoiDigits_go (acc * 10 + (b - 48)) r else acc

/-- Value of the leading decimal-digit run of a byte string, as C `atoi` computes it
on the digit-only slices that `date_time_get` feeds it. -/
def atoiDigits (s : Str) : Nat := atoiDigits_go 0 s

/-- Embedding of `date_time_get` (ftp_server.c:231-254). Returns
`(consumed, date, time)`; `consumed = 15` when the parameter starts with 14 ASCII
digits followed by a space, else `(0, 0, 0)`. The C code writes a NUL over each slice
boundary before calling `atoi`; the `.take` slices model those terminators. Each
store into the `uint16_t` outputs is taken `% 2 ^ 16`. (The C year conversion
subtracts 1980 as `int`; `Nat` subtraction agrees on every string the encoder can
produce, where the year is at least 1980.) -/
def date_time_get (p : Str) : Nat × Nat × Nat :=
  if p.length < 15 then (0, 0, 0)
  else if p.get? 14 ≠ some SPACE then (0, 0, 0)
  else if ¬ ((p.take 14).all (fun b => isdigitB b)) then (0, 0, 0)
  else
    let ss := atoiDigits ((p.drop 12).take 2)
    let mm := atoiDigits ((p.drop 10).take 2)
    let hh := atoiDigits ((p.drop 8).take 2)
    let dd := atoiDigits ((p.drop 6).take 2)
    let mo := atoiDigits ((p.drop 4).take 2)
    let yy := atoiDigits (p.take 4)
    let t1 := (ss >>> 1) % 65536
    let t2 := (t1 ||| (mm <<< 5)) % 65536
    let t3 := (t2 ||| (hh <<< 11)) % 65536
    let d1 := dd % 65536
    let d2 := (d1 ||| (mo <<< 5)) % 65536
    let d3 := (d2 ||| ((yy - 1980) <<< 9)) % 65536
    (15, d3, t3)

/-! ## STOR coalescing engine (ftp_server.c:928-997)

The receive loop of `ftp_cmd_stor` processes each contiguous pbuf segment through
three cases: bypass (segment longer than the buffer), append (fits strictly below
the free space), and fill-and-flush. The chain structure is irrelevant to the file
content: the buffer state persists across receive events, so the engine folds over
the flat segment sequence. -/

/-- Coalescing state: `buf` holds the pending bytes of the transfer buffer
(`buff_free_bytes = FTP_BUF_SIZE - buf.length`), `writes` the chunks passed to
`FTP_F_WRITE` so far, in order. -/
structure StorSt where
  buf : List Nat
  writes : List (List Nat)
deriving Repr, DecidableEq

/-- Initial coalescing state (ftp_server.c:928-929: the buffer starts empty). -/
def stor_init : StorSt := ⟨[], []⟩

/-- One contiguous segment through the coalescing cases (ftp_server.c:941-974).
`wok n` tells whether the n-th `FTP_F_WRITE` of the transfer succeeds with the full
requested length; the returned flag reports a write failure (the C loop then breaks
out and the file tail is indeterminate, so a failed write records nothing). -/
def stor_seg (B : Nat) (wok : Nat → Bool) (st : StorSt) (seg : List Nat) : StorSt × Bool :=
  if seg.length > B then
    if wok st.writes.length then ({ st with writes := st.writes ++ [seg] }, false)
    else (st, true)
  else if B - st.buf.length > seg.length then
    ({ st with buf := st.buf ++ seg }, false)
  else
    let free := B - st.buf.length
    if wok st.writes.length then
      (⟨seg.drop free, st.writes ++ [st.buf ++ seg.take free]⟩, false)
    else (st, true)

/-- Fold of `stor_seg` over the received segments, stopping at the first write
failure exactly as the C loop breaks out. -/
def stor_segs (B : Nat) (wok : Nat → Bool) : StorSt → List (List Nat) → StorSt × Bool
  | st, [] => (st, false)
  | st, seg :: rest =>
    let p := stor_seg B wok st seg
    if p.2 then (p.1, true) else stor_segs B wok p.1 rest

/-- File content produced by a STOR whose writes all succeed: the flushed chunks in
order, followed by the final short flush of the pending bytes on connection close
(ftp_server.c:988-997). -/
def stor_file (B : Nat) (segs : List (List Nat)) : List Nat :=
  let st := (stor_segs B (fun _ => true) stor_init segs).1
  st.writes.flatten ++ st.buf

/-! ## Payload pointer reads in the STOR chain loop (ftp_server.c:934-977)

The inner loop advances `rcvbuf_temp = rcvbuf_temp->next` and immediately reads
`rcvbuf_temp->payload` before the `while (rcvbuf_temp != NULL)` guard is re-checked.
A pointer is modelled by the suffix of the segment list it points to; dereferencing
the payload field of a pointer yields `some` segment bytes, or `none` when the
pointer is NULL. -/

/-- Payload dereferences performed inside the loop body after each advance: for the
suffix starting at the current segment, the read made at the end of its iteration. -/
def stor_loop_reads : List (List Nat) → List (Option (List Nat))
  | [] => []
  | _ :: rest => rest.head? :: stor_loop_reads rest

/-- Complete trace of payload-pointer dereferences for one received chain: the
initial read at ftp_server.c:935 followed by the end-of-body reads at
ftp_server.c:976. -/
def stor_payload_reads (chain : List (List Nat)) : List (Option (List Nat)) :=
  chain.head? :: stor_loop_reads chain

/-! ## Command parser reads (ftp_server.c:295-326)

`ftp_parse_command_check` indexes the received buffer `pbuf` of length `buflen`.
The embedding records every index at which the parser reads a byte and stops
modelling at the first out-of-bounds read whose value steers the control flow
(bytes beyond the buffer are unknowable adjacent memory). In-bounds reads use the
actual byte. The final `strncpy` only re-reads parameter bytes at indices already
traced in bounds, so it adds no new indices. -/

/-- C `isalpha` on a byte (ASCII). -/
def isalphaB (b : Nat) : Bool := (65 ≤ b ∧ b ≤ 90) ∨ (97 ≤ b ∧ b ≤ 122)

/-- Iterations of the alphabetic do-while loop. The fuel argument carries the
remaining value of the loop bound `FTP_CMD_SIZE - 1 - i`, so the zero case is never
entered: the loop condition `i + 1 < FTP_CMD_SIZE - 1` fails first. -/
def parse_alpha_go (buf : Str) : Nat → Nat → Nat × List Nat
  | 0, i => (i, [i])
  | fuel + 1, i =>
    if ¬ isalphaB (buf.getD i 0) then (i, [i])
    else if i + 1 < buf.length ∧ i + 1 < FTP_CMD_SIZE - 1 then
      let p := parse_alpha_go buf fuel (i + 1)
      (p.1, i :: p.2)
    else (i + 1, [i])

/-- The alphabetic do-while loop (ftp_server.c:304-310): reads `pbuf[i]`, copies
while alphabetic, and continues while `i < buflen && i < FTP_CMD_SIZE - 1`.
Returns the exit value of `i` and the indices read; the do-while shape keeps every
read of this loop in bounds. -/
def parse_alpha (buf : Str) (i : Nat) : Nat × List Nat :=
  parse_alpha_go buf (FTP_CMD_SIZE - 1 - i) i

/-- Iterations of the space-skipping loop, with fuel `buflen - j`: fuel zero means
`j` is at or past the end of the buffer, so the read at `j` is out of bounds. -/
def parse_spaces_go (buf : Str) : Nat → Nat → Option Nat × List Nat
  | 0, j => (none, [j])
  | fuel + 1, j =>
    if buf.getD j 0 = SPACE then
      let p := parse_spaces_go buf fuel (j + 1)
      (p.1, j :: p.2)
    else (some j, [j])

/-- The space-skipping loop `while (pbuf[i] == ' ') i++;` (ftp_server.c:312-314).
It has no bounds check: `none` reports that the read at the returned trace's last
index was out of bounds. -/
def parse_spaces (buf : Str) (j : Nat) : Option Nat × List Nat :=
  parse_spaces_go buf (buf.length - j) j

/-- Iterations of the parameter-length loop, with fuel `buflen - (j + k)`: fuel
zero means the read at `j + k` falls at the end of the buffer. -/
def parse_param_len_go (buf : Str) (j : Nat) : Nat → Nat → Nat × Bool × List Nat
  | 0, k => (k, true, [j + k])
  | fuel + 1, k =>
    let b := buf.getD (j + k) 0
    if b = 10 ∨ b = 13 then (k, false, [j + k])
    else
      let p := parse_param_len_go buf j fuel (k + 1)
      (p.1, p.2.1, (j + k) :: p.2.2)

/-- The parameter-length loop (ftp_server.c:315-317): the byte at `i + ret` is read
before the `(i + ret) < buflen` bound is evaluated, so when no CR/LF occurs before
the end of the buffer the loop performs exactly one read at index `buflen` and then
exits whatever that byte holds. Returns `ret`, whether that out-of-bounds read
happened, and the indices read. -/
def parse_param_len (buf : Str) (j k : Nat) : Nat × Bool × List Nat :=
  parse_param_len_go buf j (buf.length - (j + k)) k

/-- Result of tracing `ftp_parse_command_check`: the indices read from the received
buffer and whether any read fell at or beyond `buflen`. -/
structure ParseReads where
  reads : List Nat
  oob : Bool
deriving Repr, DecidableEq

/-- Trace of the buffer reads of `ftp_parse_command_check` (ftp_server.c:295-326):
the alphabetic loop, then the read of `pbuf[i]` at ftp_server.c:311 (performed even
when the loop exited with `i = buflen`), then the space loop and the
parameter-length loop when that byte is a space. -/
def ftp_parse_command_reads (buf : Str) : ParseReads :=
  if buf.length = 0 then ⟨[], false⟩
  else
    let a := parse_alpha buf 0
    if a.1 < buf.length then
      if buf.getD a.1 0 = SPACE then
        match parse_spaces buf a.1 with
        | (none, r2) => ⟨a.2 ++ [a.1] ++ r2, true⟩
        | (some j, r2) =>
          let c := parse_param_len buf j 0
          ⟨a.2 ++ [a.1] ++ r2 ++ c.2.2, c.2.1⟩
      else ⟨a.2 ++ [a.1], false⟩
    else ⟨a.2 ++ [a.1], true⟩

/-! ## Session state machine (command handlers, ftp_server.c:558-1328)

One client session is modelled at command granularity. The state carries the
`ftp_data_t` fields the claims are about; the C `parameters` buffer is passed to
each handler as an argument (the session loop stores the parsed parameter there
right before dispatch). External collaborators are an oracle record `Env` fixed for
one handler invocation: filesystem results, netconn results, and the result of the
n-th control-channel send of the invocation. Replies are traced by status code,
filesystem side effects by an `FsCall` trace. -/

/-- Result codes of ftp_result_t (ftp_server.c:50-54). -/
inductive FtpRes
  | ok
  | timeout
  | error
deriving Repr, DecidableEq

/-- Login automaton of ftp_user_t (ftp_server.c:64-68). -/
inductive FtpUser
  | none
  | noPass
  | loggedIn
deriving Repr, DecidableEq

/-- Data connection mode dcm_type (ftp_server.c:57-61). -/
inductive Dcm
  | notSet
  | passive
  | active
deriving Repr, DecidableEq

/-- The FILINFO fields the handlers consult. -/
structure FInfo where
  fdate : Nat
  ftime : Nat
  isDir : Bool
  fsize : Nat
deriving Repr, DecidableEq

/-- Filesystem calls a handler performs, with their path/argument values. The bulk
read/write calls of the transfer loops are covered by the engine above and by the
outcome oracles, not by this trace. -/
inductive FsCall
  | fstat (p : Str)
  | fopen (p : Str)
  | funlink (p : Str)
  | fmkdir (p : Str)
  | frename (pold pnew : Str)
  | futime (p : Str) (date time : Nat)
  | fclose
  | fgetfree
deriving Repr, DecidableEq

/-- How the RETR transfer loop ends (ftp_server.c:868-891): normal end of file, a
filesystem read failure, or a data-channel write failure. -/
inductive RetrOutcome
  | eof
  | readErr
  | writeErr
deriving Repr, DecidableEq

/-- Oracle for one handler invocation: results of every external call the handler
may make. `send n` is the result of its n-th control-channel write. -/
structure Env where
  cwdMax : Nat
  username : Str
  password : Str
  stat : Str → Option FInfo
  fOpenOk : Bool
  mkdirOk : Bool
  unlinkOk : Bool
  renameOk : Bool
  utimeOk : Bool
  opendirOk : Bool
  send : Nat → FtpRes
  dataWritesOk : Bool
  netNewOk : Bool
  netBindOk : Bool
  netListenOk : Bool
  netCloseOk : Bool
  netDeleteOk : Bool
  netAcceptOk : Bool
  netConnectOk : Bool
  retrOutcome : RetrOutcome
  storChains : List (List (List Nat))
  storWok : Nat → Bool
  storEndClosed : Bool

/-- The ftp_data_t fields the claims refer to. Connections are tracked by whether
the pointer is non-NULL. -/
structure FtpState where
  user : FtpUser
  path : Str
  path_rename : Str
  dcm : Dcm
  dataconn : Bool
  listdataconn : Bool
  data_port : Nat
  data_port_incremented : Nat
  ftp_con_num : Nat
deriving Repr, DecidableEq

/-- Observable outcome of one handler invocation: the C return value (`none` when
it is undefined: a void handler called through the ftp_result_t table, or the bare
`return;` paths of ftp_cmd_size), the control replies by status code, the
filesystem call trace, the new session state, and the QUIT signal. -/
structure HOut where
  res : Option FtpRes
  sent : List Nat
  fs : List FsCall
  st : FtpState
  quit : Bool := false
deriving Repr, DecidableEq

/-- Outcome of the not-logged-in gate: return FTP_RES_OK without any reply. -/
def noReply (st : FtpState) : HOut :=
  { res := some .ok, sent := [], fs := [], st := st }

/-- Outcome of a handler tail that just sends one reply and returns its result. -/
def sendOnly (env : Env) (st : FtpState) (code : Nat) : HOut :=
  { res := some (env.send 0), sent := [code], fs := [], st := st }

/-- Embedding of pasv_con_open (ftp_server.c:358-383): reuse an existing listener,
else create, bind and listen; the new connection is stored before bind, so a bind
or listen failure leaves the listener pointer set. -/
def pasv_con_open (env : Env) (st : FtpState) : FtpRes × FtpState :=
  if st.listdataconn then (.ok, st)
  else if ¬ env.netNewOk then (.error, st)
  else
    let st2 := { st with listdataconn := true }
    if ¬ env.netBindOk then (.error, st2)
    else if ¬ env.netListenOk then (.error, st2)
    else (.ok, st2)

/-- Embedding of pasv_con_close (ftp_server.c:385-403): reset the mode, then close
and delete the listener when it exists; the pointer is cleared regardless of the
close/delete results. -/
def pasv_con_close (env : Env) (st : FtpState) : FtpRes × FtpState :=
  let st2 := { st with dcm := .notSet }
  if ¬ st2.listdataconn then (.ok, st2)
  else
    ((if env.netCloseOk ∧ env.netDeleteOk then FtpRes.ok else .error),
     { st2 with listdataconn := false })

/-- Embedding of data_con_open (ftp_server.c:405-450). In active mode a bind or
connect failure deletes the fresh socket again, so the data pointer stays NULL on
every failure path. -/
def data_con_open (env : Env) (st : FtpState) : FtpRes × FtpState :=
  match st.dcm with
  | .notSet => (.error, st)
  | .passive =>
    if ¬ st.listdataconn then (.error, st)
    else if ¬ env.netAcceptOk then (.error, st)
    else (.ok, { st with dataconn := true })
  | .active =>
    if ¬ env.netNewOk then (.error, st)
    else if ¬ env.netBindOk then (.error, st)
    else if ¬ env.netConnectOk then (.error, st)
    else (.ok, { st with dataconn := true })

/-- Embedding of data_con_close (ftp_server.c:452-471): reset the mode, then close
and delete the connection when it exists; the pointer is cleared regardless of the
close/delete results. -/
def data_con_close (env : Env) (st : FtpState) : FtpRes × FtpState :=
  let st2 := { st with dcm := .notSet }
  if ¬ st2.dataconn then (.ok, st2)
  else
    ((if env.netCloseOk ∧ env.netDeleteOk then FtpRes.ok else .error),
     { st2 with dataconn := false })

/-- Embedding of ftp_cmd_pwd (ftp_server.c:558-564). -/
def ftp_cmd_pwd (env : Env) (st : FtpState) : HOut :=
  if st.user ≠ .loggedIn then noReply st else sendOnly env st 257

/-- Embedding of ftp_cmd_cwd (ftp_server.c:567-582). The stat is consulted only
when the built path is not the root. -/
def ftp_cmd_cwd (env : Env) (st : FtpState) (params : Str) : HOut :=
  if st.user ≠ .loggedIn then noReply st
  else if params.length = 0 then sendOnly env st 501
  else
    let b := path_build env.cwdMax st.path params
    let st2 := { st with path := b.2 }
    if ¬ b.1 then sendOnly env st2 500
    else if st2.path = [SLASH] then sendOnly env st2 250
    else match env.stat st2.path with
      | none => { res := some (env.send 0), sent := [550], fs := [.fstat st2.path], st := st2 }
      | some _ => { res := some (env.send 0), sent := [250], fs := [.fstat st2.path], st := st2 }

/-- Embedding of ftp_cmd_cdup (ftp_server.c:585-591): resets the working directory
to the root. -/
def ftp_cmd_cdup (env : Env) (st : FtpState) : HOut :=
  if st.user ≠ .loggedIn then noReply st
  else { res := some (env.send 0), sent := [250], fs := [], st := { st with path := [SLASH] } }

/-- Embedding of ftp_cmd_mode (ftp_server.c:593-602); 83 is the byte of S. -/
def ftp_cmd_mode (env : Env) (st : FtpState) (params : Str) : HOut :=
  if st.user ≠ .loggedIn then noReply st
  else if params = [83] then sendOnly env st 200 else sendOnly env st 504

/-- Embedding of ftp_cmd_stru (ftp_server.c:604-613); 70 is the byte of F. -/
def ftp_cmd_stru (env : Env) (st : FtpState) (params : Str) : HOut :=
  if st.user ≠ .loggedIn then noReply st
  else if params = [70] then sendOnly env st 200 else sendOnly env st 504

/-- Embedding of ftp_cmd_type (ftp_server.c:615-626); 65 and 73 are A and I. -/
def ftp_cmd_type (env : Env) (st : FtpState) (params : Str) : HOut :=
  if st.user ≠ .loggedIn then noReply st
  else if params = [65] then sendOnly env st 200
  else if params = [73] then sendOnly env st 200
  else sendOnly env st 504

/-- Embedding of ftp_cmd_pasv (ftp_server.c:628-663) with FTP_USE_PASSIVE_MODE = 1:
set the data port, open (or reuse) the listener, close any lingering data
connection, and enter passive mode. Note that the success path leaves the data
connection pointer NULL while the mode becomes passive. -/
def ftp_cmd_pasv (env : Env) (st : FtpState) : HOut :=
  if st.user ≠ .loggedIn then noReply st
  else
    let st1 := { st with data_port :=
      FTP_DATA_PORT + st.data_port_incremented + st.ftp_con_num * PORT_INCREMENT_OFFSET }
    let po := pasv_con_open env st1
    if po.1 = .ok then
      let dc := data_con_close env po.2
      if dc.1 ≠ .ok then
        let pc := pasv_con_close env dc.2
        { res := some pc.1, sent := [], fs := [], st := pc.2 }
      else
        { res := some (env.send 0), sent := [227], fs := [], st := { dc.2 with dcm := .passive } }
    else
      { res := some .error, sent := [425], fs := [], st := { po.2 with dcm := .notSet } }

/-- Position of the first occurrence of byte c at index at least i, C strchr inside
the NUL-free parameter buffer (ftp_cmd_port). -/
def strchrAt (s : Str) (i c : Nat) : Option Nat :=
  match (s.drop i).findIdx? (fun b => b = c) with
  | none => none
  | some k => some (i + k)

/-- C atoi at an index of the parameter buffer: value of the digit run starting
there (the PORT parameter carries only digits and commas, on which atoi reduces to
this). -/
def atoiAt (s : Str) (i : Nat) : Nat := atoiDigits (s.drop i)

/-- The comma parse of ftp_cmd_port (ftp_server.c:682-699): four atoi/strchr steps
over the IP octets, then the two port bytes; yields the data port exactly when
every comma is present, as the C code's final NULL check does. The parsed IP octets
feed only the data-connection target and are dropped here; the partial data_port
store made when only the fifth comma is missing is dropped with them. -/
def port_parse (s : Str) : Option Nat :=
  let p4 := (((strchrAt s 0 44).bind (fun j => strchrAt s (j + 1) 44)).bind
      (fun j => strchrAt s (j + 1) 44)).bind (fun j => strchrAt s (j + 1) 44)
  match p4 with
  | none => none
  | some j4 =>
    match strchrAt s (j4 + 1) 44 with
    | none => none
    | some j5 => some ((256 * atoiAt s (j4 + 1) + atoiAt s (j5 + 1)) % 65536)

/-- Embedding of ftp_cmd_port (ftp_server.c:665-713): close any lingering data
connection, parse the six comma-separated values, and enter active mode. -/
def ftp_cmd_port (env : Env) (st : FtpState) (params : Str) : HOut :=
  if st.user ≠ .loggedIn then noReply st
  else
    let dc := data_con_close env st
    if dc.1 ≠ .ok then { res := some .error, sent := [], fs := [], st := dc.2 }
    else if params.length = 0 then
      { res := some (env.send 0), sent := [501], fs := [], st := { dc.2 with dcm := .notSet } }
    else match port_parse params with
      | none =>
        { res := some (env.send 0), sent := [501], fs := [], st := { dc.2 with dcm := .notSet } }
      | some port =>
        { res := some (env.send 0), sent := [200], fs := [],
          st := { dc.2 with data_port := port, dcm := .active } }

/-- Embedding of ftp_cmd_list, serving LIST and NLST (ftp_server.c:715-758): open
the directory, open the data channel, announce 150, stream one line per entry on
the data channel (its per-entry writes are summarised by the dataWritesOk oracle:
any line-write failure closes the directory and the data channel and aborts), close
the data channel, reply 226. -/
def ftp_cmd_list (env : Env) (st : FtpState) : HOut :=
  if st.user ≠ .loggedIn then noReply st
  else if ¬ env.opendirOk then sendOnly env st 550
  else
    let dco := data_con_open env st
    if dco.1 ≠ .ok then { res := some .error, sent := [425], fs := [], st := dco.2 }
    else if env.send 0 ≠ .ok then { res := some .error, sent := [150], fs := [], st := dco.2 }
    else if ¬ env.dataWritesOk then
      { res := some .error, sent := [150], fs := [], st := (data_con_close env dco.2).2 }
    else
      let dcc := data_con_close env dco.2
      if dcc.1 ≠ .ok then { res := some .error, sent := [150], fs := [], st := dcc.2 }
      else { res := some (env.send 1), sent := [150, 226], fs := [], st := dcc.2 }

/-- Embedding of ftp_cmd_mlsd (ftp_server.c:760-804): same traversal as LIST with
machine-readable lines and a match-count trailer. -/
def ftp_cmd_mlsd (env : Env) (st : FtpState) : HOut :=
  if st.user ≠ .loggedIn then noReply st
  else if ¬ env.opendirOk then sendOnly env st 550
  else
    let dco := data_con_open env st
    if dco.1 ≠ .ok then { res := some .error, sent := [425], fs := [], st := dco.2 }
    else if env.send 0 ≠ .ok then { res := some .error, sent := [150], fs := [], st := dco.2 }
    else if ¬ env.dataWritesOk then
      { res := some .error, sent := [150], fs := [], st := (data_con_close env dco.2).2 }
    else
      let dcc := data_con_close env dco.2
      if dcc.1 ≠ .ok then { res := some .error, sent := [150], fs := [], st := dcc.2 }
      else { res := some (env.send 1), sent := [150, 226], fs := [], st := dcc.2 }

/-- Embedding of ftp_cmd_dele (ftp_server.c:806-829). -/
def ftp_cmd_dele (env : Env) (st : FtpState) (params : Str) : HOut :=
  if st.user ≠ .loggedIn then noReply st
  else if params.length = 0 then sendOnly env st 501
  else
    let b := path_build env.cwdMax st.path params
    let st2 := { st with path := b.2 }
    if ¬ b.1 then sendOnly env st2 500
    else match env.stat st2.path with
      | none =>
        { res := some (env.send 0), sent := [550], fs := [.fstat st2.path],
          st := { st2 with path := path_up_a_level st2.path } }
      | some _ =>
        if ¬ env.unlinkOk then
          { res := some (env.send 0), sent := [450], fs := [.fstat st2.path, .funlink st2.path],
            st := { st2 with path := path_up_a_level st2.path } }
        else
          { res := some (env.send 0), sent := [250], fs := [.fstat st2.path, .funlink st2.path],
            st := { st2 with path := path_up_a_level st2.path } }

/-- Embedding of ftp_cmd_noop (ftp_server.c:831-836). -/
def ftp_cmd_noop (env : Env) (st : FtpState) : HOut :=
  if st.user ≠ .loggedIn then noReply st else sendOnly env st 200

/-- Shared tail of the RETR loop exits (ftp_server.c:893-899): close the file, pop
the working directory, close the data channel, and reply 226 on success. `idx` is
the index of the 226 send within the invocation. -/
def retr_tail (env : Env) (sent : List Nat) (idx : Nat) (fs : List FsCall) (st : FtpState) : HOut :=
  let st2 := { st with path := path_up_a_level st.path }
  let dcc := data_con_close env st2
  if dcc.1 ≠ .ok then { res := some .error, sent := sent, fs := fs ++ [.fclose], st := dcc.2 }
  else { res := some (env.send idx), sent := sent ++ [226], fs := fs ++ [.fclose], st := dcc.2 }

/-- Abort path used when a mid-transfer reply cannot be sent (ftp_server.c:873-877
and ftp_server.c:980-985): close the file, pop the working directory, close the
data channel, return FTP_RES_ERROR. -/
def transfer_bail (env : Env) (sent : List Nat) (fs : List FsCall) (st : FtpState) : HOut :=
  let st2 := { st with path := path_up_a_level st.path }
  { res := some .error, sent := sent, fs := fs ++ [.fclose], st := (data_con_close env st2).2 }

/-- Transfer stage of ftp_cmd_retr (ftp_server.c:857-899), entered after the file
has been opened. `st2` is the session state carrying the built path; `fs0` the
filesystem trace so far. The read/write loop is summarised by its three possible
outcomes; its file reads and data-channel writes do not touch the traced state. -/
def ftp_cmd_retr_transfer (env : Env) (fs0 : List FsCall) (st2 : FtpState) : HOut :=
  let dco := data_con_open env st2
  if dco.1 ≠ .ok then
    { res := some .error, sent := [425], fs := fs0 ++ [.fclose],
      st := { dco.2 with path := path_up_a_level dco.2.path } }
  else if env.send 0 ≠ .ok then
    { res := some .error, sent := [150], fs := fs0, st := dco.2 }
  else match env.retrOutcome with
    | .eof => retr_tail env [150] 1 fs0 dco.2
    | .readErr =>
      if env.send 1 ≠ .ok then transfer_bail env [150, 451] fs0 dco.2
      else retr_tail env [150, 451] 2 fs0 dco.2
    | .writeErr =>
      { res := some .error, sent := [150, 426], fs := fs0 ++ [.fclose],
        st := (data_con_close env { dco.2 with path := path_up_a_level dco.2.path }).2 }

/-- Embedding of ftp_cmd_retr (ftp_server.c:838-900). -/
def ftp_cmd_retr (env : Env) (st : FtpState) (params : Str) : HOut :=
  if st.user ≠ .loggedIn then noReply st
  else if params.length = 0 then sendOnly env st 501
  else
    let b := path_build env.cwdMax st.path params
    let st2 := { st with path := b.2 }
    if ¬ b.1 then sendOnly env st2 500
    else match env.stat st2.path with
      | none =>
        { res := some (env.send 0), sent := [550], fs := [.fstat st2.path],
          st := { st2 with path := path_up_a_level st2.path } }
      | some _ =>
        if ¬ env.fOpenOk then
          { res := some (env.send 0), sent := [450], fs := [.fstat st2.path, .fopen st2.path],
            st := { st2 with path := path_up_a_level st2.path } }
        else ftp_cmd_retr_transfer env [.fstat st2.path, .fopen st2.path] st2

/-- Transfer stage of ftp_cmd_stor (ftp_server.c:917-1025), entered after the file
has been created. The receive loop runs the coalescing engine over the flattened
chains with the per-write success oracle; a write failure sends 451, a receive
error other than connection-closed sends 426 after the final flush, and the tail
closes everything and replies 226. -/
def ftp_cmd_stor_transfer (env : Env) (fs0 : List FsCall) (st2 : FtpState) : HOut :=
  let dco := data_con_open env st2
  if dco.1 ≠ .ok then
    { res := some (env.send 0), sent := [425], fs := fs0 ++ [.fclose],
      st := { dco.2 with path := path_up_a_level dco.2.path } }
  else if env.send 0 ≠ .ok then
    { res := some .error, sent := [150], fs := fs0, st := dco.2 }
  else
    let eng := stor_segs FTP_BUF_SIZE env.storWok stor_init env.storChains.flatten
    if eng.2 then
      if env.send 1 ≠ .ok then transfer_bail env [150, 451] fs0 dco.2
      else retr_tail env [150, 451] 2 fs0 dco.2
    else if eng.1.buf.length ≠ 0 ∧ ¬ env.storWok eng.1.writes.length then
      if env.send 1 ≠ .ok then transfer_bail env [150, 451] fs0 dco.2
      else if ¬ env.storEndClosed then
        if env.send 2 ≠ .ok then transfer_bail env [150, 451, 426] fs0 dco.2
        else retr_tail env [150, 451, 426] 3 fs0 dco.2
      else retr_tail env [150, 451] 2 fs0 dco.2
    else if ¬ env.storEndClosed then
      if env.send 1 ≠ .ok then transfer_bail env [150, 426] fs0 dco.2
      else retr_tail env [150, 426] 2 fs0 dco.2
    else retr_tail env [150] 1 fs0 dco.2

/-- Embedding of ftp_cmd_stor (ftp_server.c:902-1026). -/
def ftp_cmd_stor (env : Env) (st : FtpState) (params : Str) : HOut :=
  if st.user ≠ .loggedIn then noReply st
  else if params.length = 0 then sendOnly env st 501
  else
    let b := path_build env.cwdMax st.path params
    let st2 := { st with path := b.2 }
    if ¬ b.1 then sendOnly env st2 500
    else if ¬ env.fOpenOk then
      { res := some (env.send 0), sent := [450], fs := [.fopen st2.path],
        st := { st2 with path := path_up_a_level st2.path } }
    else ftp_cmd_stor_transfer env [.fopen st2.path] st2

/-- Embedding of ftp_cmd_mkd (ftp_server.c:1028-1051). Note that the success path
replies 257 without popping the working directory. -/
def ftp_cmd_mkd (env : Env) (st : FtpState) (params : Str) : HOut :=
  if st.user ≠ .loggedIn then noReply st
  else if params.length = 0 then sendOnly env st 501
  else
    let b := path_build env.cwdMax st.path params
    let st2 := { st with path := b.2 }
    if ¬ b.1 then sendOnly env st2 500
    else match env.stat st2.path with
      | some _ =>
        { res := some (env.send 0), sent := [521], fs := [.fstat st2.path],
          st := { st2 with path := path_up_a_level st2.path } }
      | none =>
        if ¬ env.mkdirOk then
          { res := some (env.send 0), sent := [550], fs := [.fstat st2.path, .fmkdir st2.path],
            st := { st2 with path := path_up_a_level st2.path } }
        else
          { res := some (env.send 0), sent := [257], fs := [.fstat st2.path, .fmkdir st2.path],
            st := st2 }

/-- Embedding of ftp_cmd_rmd (ftp_server.c:1053-1076). -/
def ftp_cmd_rmd (env : Env) (st : FtpState) (params : Str) : HOut :=
  if st.user ≠ .loggedIn then noReply st
  else if params.length = 0 then sendOnly env st 501
  else
    let b := path_build env.cwdMax st.path params
    let st2 := { st with path := b.2 }
    if ¬ b.1 then sendOnly env st2 500
    else match env.stat st2.path with
      | none =>
        { res := some (env.send 0), sent := [550], fs := [.fstat st2.path],
          st := { st2 with path := path_up_a_level st2.path } }
      | some _ =>
        if ¬ env.unlinkOk then
          { res := some (env.send 0), sent := [501], fs := [.fstat st2.path, .funlink st2.path],
            st := { st2 with path := path_up_a_level st2.path } }
        else
          { res := some (env.send 0), sent := [250], fs := [.fstat st2.path, .funlink st2.path],
            st := { st2 with path := path_up_a_level st2.path } }

/-- Embedding of ftp_cmd_rnfr (ftp_server.c:1078-1095): stage the source path in
path_rename; the working directory itself is not touched. -/
def ftp_cmd_rnfr (env : Env) (st : FtpState) (params : Str) : HOut :=
  if st.user ≠ .loggedIn then noReply st
  else if params.length = 0 then sendOnly env st 501
  else
    let b := path_build env.cwdMax st.path params
    let st2 := { st with path_rename := b.2 }
    if ¬ b.1 then sendOnly env st2 500
    else match env.stat st2.path_rename with
      | none =>
        { res := some (env.send 0), sent := [550], fs := [.fstat st2.path_rename], st := st2 }
      | some _ =>
        { res := some (env.send 0), sent := [350], fs := [.fstat st2.path_rename], st := st2 }

/-- Embedding of ftp_cmd_rnto (ftp_server.c:1097-1125). path_rename is never
cleared, so a later RNTO can silently reuse the stale source. -/
def ftp_cmd_rnto (env : Env) (st : FtpState) (params : Str) : HOut :=
  if st.user ≠ .loggedIn then noReply st
  else if params.length = 0 then sendOnly env st 501
  else if st.path_rename.length = 0 then sendOnly env st 503
  else
    let b := path_build env.cwdMax st.path params
    let st2 := { st with path := b.2 }
    if ¬ b.1 then sendOnly env st2 500
    else match env.stat st2.path with
      | some _ =>
        { res := some (env.send 0), sent := [553], fs := [.fstat st2.path],
          st := { st2 with path := path_up_a_level st2.path } }
      | none =>
        if ¬ env.renameOk then
          { res := some (env.send 0), sent := [451],
            fs := [.fstat st2.path, .frename st2.path_rename st2.path],
            st := { st2 with path := path_up_a_level st2.path } }
        else
          { res := some (env.send 0), sent := [250],
            fs := [.fstat st2.path, .frename st2.path_rename st2.path],
            st := { st2 with path := path_up_a_level st2.path } }

/-- Embedding of ftp_cmd_feat (ftp_server.c:1127-1132). -/
def ftp_cmd_feat (env : Env) (st : FtpState) : HOut :=
  if st.user ≠ .loggedIn then noReply st else sendOnly env st 211

/-- Embedding of ftp_cmd_syst (ftp_server.c:1134-1139). -/
def ftp_cmd_syst (env : Env) (st : FtpState) : HOut :=
  if st.user ≠ .loggedIn then noReply st else sendOnly env st 215

/-- Embedding of ftp_cmd_mdtm (ftp_server.c:1141-1174): decode an optional
14-digit-plus-space prefix, build the path from the remainder, stat it, pop the
working directory, and then either report the stored time (213) or set the new time
with FTP_F_UTIME — which the C code calls on the already-popped path. -/
def ftp_cmd_mdtm (env : Env) (st : FtpState) (params : Str) : HOut :=
  if st.user ≠ .loggedIn then noReply st
  else
    let g := date_time_get params
    let fname := params.drop g.1
    if fname.length = 0 then sendOnly env st 501
    else
      let b := path_build env.cwdMax st.path fname
      let st2 := { st with path := b.2 }
      if ¬ b.1 then sendOnly env st2 500
      else match env.stat st2.path with
        | none =>
          { res := some (env.send 0), sent := [550], fs := [.fstat st2.path],
            st := { st2 with path := path_up_a_level st2.path } }
        | some _ =>
          let built := st2.path
          let st3 := { st2 with path := path_up_a_level st2.path }
          if g.1 = 0 then
            { res := some (env.send 0), sent := [213], fs := [.fstat built], st := st3 }
          else if env.utimeOk then
            { res := some (env.send 0), sent := [200],
              fs := [.fstat built, .futime st3.path g.2.1 g.2.2], st := st3 }
          else
            { res := some (env.send 0), sent := [550],
              fs := [.fstat built, .futime st3.path g.2.1 g.2.2], st := st3 }

/-- Embedding of ftp_cmd_size (ftp_server.c:1176-1201). The function is declared
ftp_result_t but every path leaves through a plain `return;` or falls off the end,
so its C return value is undefined: res is none. The success branch also closes the
never-opened file handle. -/
def ftp_cmd_size (env : Env) (st : FtpState) (params : Str) : HOut :=
  if st.user ≠ .loggedIn then { res := none, sent := [], fs := [], st := st }
  else if params.length = 0 then { res := none, sent := [501], fs := [], st := st }
  else
    let b := path_build env.cwdMax st.path params
    let st2 := { st with path := b.2 }
    if ¬ b.1 then { res := none, sent := [500], fs := [], st := st2 }
    else
      let bad := match env.stat st2.path with
        | none => true
        | some i => i.isDir
      if bad then
        { res := none, sent := [550], fs := [.fstat st2.path],
          st := { st2 with path := path_up_a_level st2.path } }
      else
        { res := none, sent := [213], fs := [.fstat st2.path, .fclose],
          st := { st2 with path := path_up_a_level st2.path } }

/-- Embedding of ftp_cmd_site (ftp_server.c:1203-1216), a void handler invoked
through the ftp_result_t table: res is none. The bytes 70,82,69,69 spell FREE. -/
def ftp_cmd_site (env : Env) (st : FtpState) (params : Str) : HOut :=
  if st.user ≠ .loggedIn then { res := none, sent := [], fs := [], st := st }
  else if params = [70, 82, 69, 69] then
    { res := none, sent := [211], fs := [.fgetfree], st := st }
  else { res := none, sent := [550], fs := [], st := st }

/-- Embedding of ftp_cmd_stat (ftp_server.c:1218-1226), a void handler invoked
through the ftp_result_t table: res is none. -/
def ftp_cmd_stat (env : Env) (st : FtpState) : HOut :=
  if st.user ≠ .loggedIn then { res := none, sent := [], fs := [], st := st }
  else { res := none, sent := [221], fs := [], st := st }

/-- Embedding of ftp_cmd_auth (ftp_server.c:1228-1231), a void handler with no
login gate: always replies 504. -/
def ftp_cmd_auth (env : Env) (st : FtpState) : HOut :=
  { res := none, sent := [504], fs := [], st := st }

/-- Embedding of ftp_cmd_user (ftp_server.c:1233-1247), a void handler. -/
def ftp_cmd_user (env : Env) (st : FtpState) (params : Str) : HOut :=
  if params = env.username then
    { res := none, sent := [331], fs := [], st := { st with user := .noPass } }
  else { res := none, sent := [530], fs := [], st := st }

/-- Embedding of ftp_cmd_pass (ftp_server.c:1249-1268), a void handler. -/
def ftp_cmd_pass (env : Env) (st : FtpState) (params : Str) : HOut :=
  if st.user = .none then { res := none, sent := [530], fs := [], st := st }
  else if params = env.password then
    { res := none, sent := [230], fs := [], st := { st with user := .loggedIn } }
  else { res := none, sent := [530], fs := [], st := st }

/-- The verbs of the command table ftpd_commands (ftp_server.c:1270-1300) plus
QUIT (handled by the dispatcher) and the unknown-verb case. -/
inductive Verb
  | pwd | cwd | cdup | mode | stru | typ | pasv | port | nlst | list | mlsd
  | dele | noop | retr | stor | mkd | rmd | rnfr | rnto | feat | mdtm | size
  | site | stat | syst | auth | user | pass | quit | unknown
deriving Repr, DecidableEq

/-- Embedding of ftp_process_command (ftp_server.c:1308-1328): QUIT replies 221 and
signals the session loop; a verb in the table runs its handler; anything else gets
a 500 reply. NLST and LIST share one handler. -/
def ftp_process_command (env : Env) (st : FtpState) (v : Verb) (params : Str) : HOut :=
  match v with
  | .quit => { res := some (env.send 0), sent := [221], fs := [], st := st, quit := true }
  | .pwd => ftp_cmd_pwd env st
  | .cwd => ftp_cmd_cwd env st params
  | .cdup => ftp_cmd_cdup env st
  | .mode => ftp_cmd_mode env st params
  | .stru => ftp_cmd_stru env st params
  | .typ => ftp_cmd_type env st params
  | .pasv => ftp_cmd_pasv env st
  | .port => ftp_cmd_port env st params
  | .nlst => ftp_cmd_list env st
  | .list => ftp_cmd_list env st
  | .mlsd => ftp_cmd_mlsd env st
  | .dele => ftp_cmd_dele env st params
  | .noop => ftp_cmd_noop env st
  | .retr => ftp_cmd_retr env st params
  | .stor => ftp_cmd_stor env st params
  | .mkd => ftp_cmd_mkd env st params
  | .rmd => ftp_cmd_rmd env st params
  | .rnfr => ftp_cmd_rnfr env st params
  | .rnto => ftp_cmd_rnto env st params
  | .feat => ftp_cmd_feat env st
  | .mdtm => ftp_cmd_mdtm env st params
  | .size => ftp_cmd_size env st params
  | .site => ftp_cmd_site env st params
  | .stat => ftp_cmd_stat env st
  | .syst => ftp_cmd_syst env st
  | .auth => ftp_cmd_auth env st
  | .user => ftp_cmd_user env st params
  | .pass => ftp_cmd_pass env st params
  | .unknown => { res := some (env.send 0), sent := [500], fs := [], st := st }

/-- Session fields as ftp_service resets them on client connect
(ftp_server.c:1341-1358). The port-rotation counter enters the first session at 1
(static zero, then incremented mod 25); it feeds only the passive data port. -/
def ftp_init_state : FtpState :=
  { user := .none, path := [SLASH], path_rename := [], dcm := .notSet,
    dataconn := false, listdataconn := false, data_port := 0,
    data_port_incremented := 1, ftp_con_num := 0 }

/-- The session loop (ftp_server.c:1371-1384) runs another command only when the
previous handler reported FTP_RES_OK and did not signal QUIT. Handlers whose C
return value is undefined (res = none) are allowed to continue, covering the
observed behaviour of the firmware. -/
def continues (o : HOut) : Prop := (o.res = some .ok ∨ o.res = none) ∧ o.quit = false

/-- Session states visible at command boundaries, reachable from session start by
some command sequence under some oracle behaviour. -/
inductive Reaches : FtpState → Prop
  | start : Reaches ftp_init_state
  | step (s : FtpState) (env : Env) (v : Verb) (params : Str) :
      Reaches s → continues (ftp_process_command env s v params) →
      Reaches (ftp_process_command env s v params).st

/-! ## Concrete oracles and states used by the evaluation theorems -/

/-- A benign oracle: capacity 263 (`_MAX_LFN` 255 + 8), the default credentials
`user`/`pass` (ftp_config.h:114-118), every external call succeeding, and an empty
filesystem. -/
def envOkBase : Env :=
  { cwdMax := 263, username := [117, 115, 101, 114], password := [112, 97, 115, 115],
    stat := fun _ => none, fOpenOk := true, mkdirOk := true, unlinkOk := true,
    renameOk := true, utimeOk := true, opendirOk := true, send := fun _ => .ok,
    dataWritesOk := true, netNewOk := true, netBindOk := true, netListenOk := true,
    netCloseOk := true, netDeleteOk := true, netAcceptOk := true, netConnectOk := true,
    retrOutcome := .eof, storChains := [], storWok := fun _ => true, storEndClosed := true }

/-- A freshly started session that has completed USER/PASS. -/
def stLoggedIn : FtpState := { ftp_init_state with user := .loggedIn }

/-! ## C2: payload pointer reads in the STOR chain loop -/

/-- Helper for the chain-read trace: the end-of-body reads always finish with a
read through the NULL pointer. -/
theorem stor_loop_reads_last (chain : List (List Nat)) (h : chain ≠ []) :
    (stor_loop_reads chain).getLast? = some none := by
  induction chain with
  | nil => exact absurd rfl h
  | cons a rest ih =>
    cases rest with
    | nil => rfl
    | cons b r =>
      show ((b :: r).head? :: stor_loop_reads (b :: r)).getLast? = some none
      have e : stor_loop_reads (b :: r) = r.head? :: stor_loop_reads r := rfl
      rw [e, List.getLast?_cons_cons, ← e]
      exact ih (by simp)

/-- C2: in the STOR receive loop the payload pointer is NOT read only from
non-null chain segments: for every non-empty received chain, the final payload
dereference of the inner loop (ftp_server.c:976, executed after
`rcvbuf_temp = rcvbuf_temp->next` and before the `while` guard) goes through the
NULL next pointer of the last segment, so the none-branch of a total embedding is
reached on every chain. -/
theorem stor_payload_reads_end_null (chain : List (List Nat)) (h : chain ≠ []) :
    (stor_payload_reads chain).getLast? = some none := by
  cases chain with
  | nil => exact absurd rfl h
  | cons c r =>
    show ((c :: r).head? :: stor_loop_reads (c :: r)).getLast? = some none
    have e : stor_loop_reads (c :: r) = r.head? :: stor_loop_reads r := rfl
    rw [e, List.getLast?_cons_cons, ← e]
    exact stor_loop_reads_last (c :: r) (by simp)

/-- Witness for C2: a successful receive delivering the single-segment chain with
payload byte 65 performs the reads [some [65], none] — the last one through NULL. -/
theorem stor_payload_reads_end_null_witness :
    ([[65]] : List (List Nat)) ≠ [] ∧ (stor_payload_reads [[65]]).getLast? = some none :=
  ⟨by decide, stor_payload_reads_end_null [[65]] (by decide)⟩

/-! ## C3: working-directory restoration -/

/-- C3 is false of the code: from the reachable state with cwd `/`, a logged-in
MKD d (byte 100) whose stat fails and whose mkdir succeeds reaches the terminal
success reply 257 with FTP_RES_OK, yet leaves the session cwd at `/d` instead of
restoring `/` — ftp_cmd_mkd (ftp_server.c:1049-1050) returns without the
path_up_a_level call every other terminal outcome performs. -/
theorem mkd_success_keeps_built_path :
    (ftp_cmd_mkd envOkBase stLoggedIn [100]).res = some .ok ∧
    (ftp_cmd_mkd envOkBase stLoggedIn [100]).sent = [257] ∧
    stLoggedIn.path = [47] ∧
    (ftp_cmd_mkd envOkBase stLoggedIn [100]).st.path = [47, 100] := by decide

/-! ## C6: gating of handlers before login -/

/-- C6 is false of the code on the return-value half: with a not-logged-in
session, SIZE, SITE and STAT indeed send nothing, but their C return value is
undefined rather than success — ftp_cmd_size (ftp_server.c:1176-1179) is declared
ftp_result_t yet leaves through a bare `return;`, and ftp_cmd_site/ftp_cmd_stat are
void functions invoked through the ftp_result_t table (ftp_server.c:1293-1294). A
defined-result handler such as PWD does return success with no reply. -/
theorem not_logged_in_size_result_undefined :
    (ftp_process_command envOkBase ftp_init_state .size [97]).res = none ∧
    (ftp_process_command envOkBase ftp_init_state .size [97]).sent = [] ∧
    (ftp_process_command envOkBase ftp_init_state .site [97]).res = none ∧
    (ftp_process_command envOkBase ftp_init_state .site [97]).sent = [] ∧
    (ftp_process_command envOkBase ftp_init_state .stat []).res = none ∧
    (ftp_process_command envOkBase ftp_init_state .stat []).sent = [] ∧
    (ftp_process_command envOkBase ftp_init_state .pwd []).res = some .ok ∧
    (ftp_process_command envOkBase ftp_init_state .pwd []).sent = [] ∧
    ftp_init_state.user ≠ .loggedIn := by decide

/-! ## C7: MDTM set-time path -/

/-- Oracle under which the file `/f.txt` exists. -/
def envC7 : Env :=
  { envOkBase with
    stat := fun p => if p = [47, 102, 46, 116, 120, 116] then some ⟨0, 0, false, 0⟩ else none }

/-- The MDTM parameter `20200101120000 f.txt`. -/
def mdtmParams : Str :=
  [50, 48, 50, 48, 48, 49, 48, 49, 49, 50, 48, 48, 48, 48, 32, 102, 46, 116, 120, 116]

/-- C7 is false of the code on the utime target: for the parameter
`20200101120000 f.txt` with existing `/f.txt`, the handler decodes date 20513 and
time 24576 and replies 200, but ftp_cmd_mdtm pops the working directory
(ftp_server.c:1162) before calling FTP_F_UTIME (ftp_server.c:1169), so utime is
invoked on the parent directory `/` and not on the built file path `/f.txt`. -/
theorem mdtm_utime_on_popped_path :
    (ftp_cmd_mdtm envC7 stLoggedIn mdtmParams).res = some .ok ∧
    (ftp_cmd_mdtm envC7 stLoggedIn mdtmParams).sent = [200] ∧
    (ftp_cmd_mdtm envC7 stLoggedIn mdtmParams).fs =
      [.fstat [47, 102, 46, 116, 120, 116], .futime [47] 20513 24576] ∧
    ([47] : Str) ≠ [47, 102, 46, 116, 120, 116] := by decide

/-! ## C10: parser read bounds -/

/-- C10 is false of the code: on the four-byte buffer `NOOP` (no trailing CR/LF),
the alphabetic loop exits with i = 4 and ftp_parse_command_check reads `pbuf[4]`
(ftp_server.c:311) — an index equal to buflen, not strictly below it. -/
theorem parser_reads_index_buflen :
    ftp_parse_command_reads [78, 79, 79, 80] = ⟨[0, 1, 2, 3, 4], true⟩ ∧
    4 ∈ (ftp_parse_command_reads [78, 79, 79, 80]).reads ∧
    ([78, 79, 79, 80] : Str).length = 4 := by decide

/-! ## Reachability of concrete session states -/

/-- USER user followed by PASS pass reaches the logged-in state. -/
theorem reaches_stLoggedIn : Reaches stLoggedIn := by
  have h0 : Reaches ftp_init_state := .start
  have c1 : continues (ftp_process_command envOkBase ftp_init_state .user
      [117, 115, 101, 114]) := by
    unfold continues; decide
  have h1 := Reaches.step ftp_init_state envOkBase .user [117, 115, 101, 114] h0 c1
  have e1 : (ftp_process_command envOkBase ftp_init_state .user [117, 115, 101, 114]).st
      = { ftp_init_state with user := .noPass } := by decide
  rw [e1] at h1
  have c2 : continues (ftp_process_command envOkBase { ftp_init_state with user := .noPass }
      .pass [112, 97, 115, 115]) := by
    unfold continues; decide
  have h2 := Reaches.step _ envOkBase .pass [112, 97, 115, 115] h1 c2
  have e2 : (ftp_process_command envOkBase { ftp_init_state with user := .noPass }
      .pass [112, 97, 115, 115]).st = stLoggedIn := by decide
  rw [e2] at h2
  exact h2

/-! ## C4: cwd shape invariant -/

/-- Oracle under which the directory path `/a/` (with its trailing slash) stats
successfully; the spec's filesystem interface leaves which paths stat successfully
to the collaborator. -/
def envC4 : Env :=
  { envOkBase with stat := fun p => if p = [47, 97, 47] then some ⟨0, 0, true, 0⟩ else none }

/-- C4 is false of the code as stated: from the reachable logged-in state, the
command CWD `a//` builds `/a//`, and the single trailing-slash strip of path_build
(ftp_server.c:540-542) leaves `/a/`; when that path stats successfully the handler
replies 250 and returns FTP_RES_OK with a cwd of length 3 that ends in `/`. -/
theorem cwd_success_trailing_slash :
    Reaches stLoggedIn ∧
    (ftp_process_command envC4 stLoggedIn .cwd [97, 47, 47]).res = some .ok ∧
    (ftp_process_command envC4 stLoggedIn .cwd [97, 47, 47]).sent = [250] ∧
    (ftp_process_command envC4 stLoggedIn .cwd [97, 47, 47]).st.path = [47, 97, 47] ∧
    ([47, 97, 47] : Str).length > 1 ∧ ([47, 97, 47] : Str).getLast? = some SLASH :=
  ⟨reaches_stLoggedIn, by decide, by decide, by decide, by decide, by decide⟩

/-! ## C5: data mode versus data connection -/

/-- The state after USER, PASS and a successful PASV. -/
def pasvState : FtpState :=
  { user := .loggedIn, path := [SLASH], path_rename := [], dcm := .passive,
    dataconn := false, listdataconn := true, data_port := 55601,
    data_port_incremented := 1, ftp_con_num := 0 }

/-- The PASV success state is reachable. -/
theorem reaches_pasvState : Reaches pasvState := by
  have c3 : continues (ftp_process_command envOkBase stLoggedIn .pasv []) := by
    unfold continues; decide
  have h3 := Reaches.step stLoggedIn envOkBase .pasv [] reaches_stLoggedIn c3
  have e3 : (ftp_process_command envOkBase stLoggedIn .pasv []).st = pasvState := by decide
  rw [e3] at h3
  exact h3

/-- C5 is false of the code as an equivalence: after a successful PASV (a state
reachable by USER, PASS, PASV), data_conn_mode is PASSIVE (ftp_server.c:646) while
the data connection pointer is still NULL — it is only created by the next
transfer command — so `data_mode = NOT_SET ⇔ data_conn = null` fails in the
null-but-mode-set direction. -/
theorem pasv_mode_set_dataconn_null :
    Reaches pasvState ∧ pasvState.dcm = .passive ∧ pasvState.dataconn = false ∧
    ¬ (pasvState.dcm = .notSet ↔ pasvState.dataconn = false) :=
  ⟨reaches_pasvState, by decide, by decide, by decide⟩

/-! ## Amended invariants: path shape and data-connection nullity -/

/-- Shape invariant of the amended C4: the working directory is a non-empty string
whose first character is the slash. -/
def pathOk (p : Str) : Prop := p ≠ [] ∧ p.head? = some SLASH

/-- A non-empty prefix has the head of the whole list. -/
theorem head?_of_isPrefixOf {q p : Str} (hq : q ≠ []) (hpre : q <+: p) : q.head? = p.head? := by
  obtain ⟨r, rfl⟩ := hpre
  cases q with
  | nil => exact absurd rfl hq
  | cons a t => simp

/-- Dropping the last element of a list of length at least two keeps the head and
stays non-empty. -/
theorem dropLast_pathOk {l : Str} (h : 1 < l.length) :
    l.dropLast.head? = l.head? ∧ l.dropLast ≠ [] := by
  match l, h with
  | a :: b :: t, _ => simp

/-- path_up_a_level preserves the path-shape invariant. -/
theorem pathOk_up (p : Str) (h : pathOk p) : pathOk (path_up_a_level p) := by
  unfold path_up_a_level
  split
  case isFalse => exact h
  case isTrue hmem =>
    have hne : p.rdropWhile (fun c => c ≠ SLASH) ≠ [] := by
      rw [Ne, List.rdropWhile_eq_nil_iff]
      intro hall
      have := hall SLASH hmem
      simp at this
    have hpre : p.rdropWhile (fun c => c ≠ SLASH) <+: p := List.rdropWhile_prefix _ p
    have hhead : (p.rdropWhile (fun c => c ≠ SLASH)).head? = some SLASH :=
      (head?_of_isPrefixOf hne hpre).trans h.2
    show pathOk (if (p.rdropWhile (fun c => c ≠ SLASH)).length > 1
        then (p.rdropWhile (fun c => c ≠ SLASH)).dropLast
        else p.rdropWhile (fun c => c ≠ SLASH))
    split
    case isTrue hlen =>
      have hd := dropLast_pathOk hlen
      exact ⟨hd.2, hd.1.trans hhead⟩
    case isFalse => exact ⟨hne, hhead⟩

/-- Appending to a non-empty list keeps its head. -/
theorem head?_append_left {l r : Str} (h : l ≠ []) : (l ++ r).head? = l.head? := by
  cases l with
  | nil => exact absurd rfl h
  | cons a t => simp

/-- The single-trailing-slash strip of path_build (ftp_server.c:540-542) preserves
the path-shape invariant. -/
theorem pathOk_strip (l : Str) (h : pathOk l) :
    pathOk (if l.getLast? = some SLASH ∧ l.length > 2 then l.dropLast else l) := by
  split
  case isTrue hc =>
    have hd := dropLast_pathOk (l := l) (by omega)
    exact ⟨hd.2, hd.1.trans h.2⟩
  case isFalse => exact h

/-- path_build preserves the path-shape invariant whatever the parameter is. -/
theorem pathOk_build (m : Nat) (cur param : Str) (h : pathOk cur) :
    pathOk (path_build m cur param).2 := by
  have hbuilt : pathOk (
      if param = [SLASH] ∨ param.length = 0 then [SLASH]
      else if param = [46, 46] then path_up_a_level cur
      else if param.head? ≠ some SLASH then
        (if cur.getLast? ≠ some SLASH then cur ++ [SLASH] else cur) ++ param
      else param) := by
    by_cases h1 : param = [SLASH] ∨ param.length = 0
    · rw [if_pos h1]; exact ⟨by simp, rfl⟩
    rw [if_neg h1]
    by_cases h2 : param = [46, 46]
    · rw [if_pos h2]; exact pathOk_up cur h
    rw [if_neg h2]
    by_cases h3 : param.head? ≠ some SLASH
    · rw [if_pos h3]
      by_cases h4 : cur.getLast? ≠ some SLASH
      · rw [if_pos h4]
        refine ⟨by simp, ?_⟩
        rw [head?_append_left (by simp : cur ++ [SLASH] ≠ ([] : Str))]
        rw [head?_append_left h.1]
        exact h.2
      · rw [if_neg h4]
        exact ⟨fun hn => h.1 (List.append_eq_nil.mp hn).1, (head?_append_left h.1).trans h.2⟩
    · rw [if_neg h3]
      rw [not_not] at h3
      refine ⟨?_, h3⟩
      intro hnil
      rw [hnil] at h3
      simp at h3
  exact pathOk_strip _ hbuilt

/-- The connection helper pasv_con_open does not touch the working directory. -/
theorem pasv_con_open_path (env : Env) (st : FtpState) :
    (pasv_con_open env st).2.path = st.path := by
  simp only [pasv_con_open]; (repeat' split) <;> rfl

/-- The connection helper pasv_con_close does not touch the working directory. -/
theorem pasv_con_close_path (env : Env) (st : FtpState) :
    (pasv_con_close env st).2.path = st.path := by
  simp only [pasv_con_close]; (repeat' split) <;> rfl

/-- The connection helper data_con_open does not touch the working directory. -/
theorem data_con_open_path (env : Env) (st : FtpState) :
    (data_con_open env st).2.path = st.path := by
  simp only [data_con_open]; (repeat' split) <;> rfl

/-- The connection helper data_con_close does not touch the working directory. -/
theorem data_con_close_path (env : Env) (st : FtpState) :
    (data_con_close env st).2.path = st.path := by
  simp only [data_con_close]; (repeat' split) <;> rfl

/-- The shared transfer tail pops exactly one level off the working directory. -/
theorem retr_tail_path (env : Env) (sent : List Nat) (idx : Nat) (fs : List FsCall)
    (st : FtpState) : (retr_tail env sent idx fs st).st.path = path_up_a_level st.path := by
  simp only [retr_tail]
  (repeat' split) <;> simp [data_con_close_path]

/-- The transfer abort path pops exactly one level off the working directory. -/
theorem transfer_bail_path (env : Env) (sent : List Nat) (fs : List FsCall)
    (st : FtpState) : (transfer_bail env sent fs st).st.path = path_up_a_level st.path := by
  simp only [transfer_bail]
  simp [data_con_close_path]

/-- The RETR transfer stage preserves the path-shape invariant. -/
theorem retr_transfer_pathOk (env : Env) (fs0 : List FsCall) (st2 : FtpState)
    (h : pathOk st2.path) : pathOk (ftp_cmd_retr_transfer env fs0 st2).st.path := by
  simp only [ftp_cmd_retr_transfer]
  (repeat' split) <;>
    (try simp only [retr_tail_path, transfer_bail_path, data_con_open_path,
      data_con_close_path]) <;>
    first
      | exact h
      | exact pathOk_up _ h

/-- The STOR transfer stage preserves the path-shape invariant. -/
theorem stor_transfer_pathOk (env : Env) (fs0 : List FsCall) (st2 : FtpState)
    (h : pathOk st2.path) : pathOk (ftp_cmd_stor_transfer env fs0 st2).st.path := by
  simp only [ftp_cmd_stor_transfer]
  (repeat' split) <;>
    (try simp only [retr_tail_path, transfer_bail_path, data_con_open_path,
      data_con_close_path]) <;>
    first
      | exact h
      | exact pathOk_up _ h

set_option maxHeartbeats 2000000 in
/-- Every handler (and the dispatcher around them) preserves the path-shape
invariant: the session cwd stays non-empty and slash-headed. -/
theorem process_pathOk (env : Env) (st : FtpState) (v : Verb) (params : Str)
    (h : pathOk st.path) : pathOk (ftp_process_command env st v params).st.path := by
  have hroot : pathOk [SLASH] := ⟨by simp, rfl⟩
  cases v <;>
    simp only [ftp_process_command, ftp_cmd_pwd, ftp_cmd_cwd, ftp_cmd_cdup, ftp_cmd_mode,
      ftp_cmd_stru, ftp_cmd_type, ftp_cmd_pasv, ftp_cmd_port, ftp_cmd_list, ftp_cmd_mlsd,
      ftp_cmd_dele, ftp_cmd_noop, ftp_cmd_retr, ftp_cmd_stor, ftp_cmd_mkd, ftp_cmd_rmd,
      ftp_cmd_rnfr, ftp_cmd_rnto, ftp_cmd_feat, ftp_cmd_syst, ftp_cmd_mdtm, ftp_cmd_size,
      ftp_cmd_site, ftp_cmd_stat, ftp_cmd_auth, ftp_cmd_user, ftp_cmd_pass,
      noReply, sendOnly] <;>
    (repeat' split) <;>
    (try simp only [retr_tail_path, transfer_bail_path, data_con_open_path,
      data_con_close_path, pasv_con_open_path, pasv_con_close_path]) <;>
    first
      | exact h
      | exact hroot
      | exact pathOk_build _ _ _ h
      | exact pathOk_up _ (pathOk_build _ _ _ h)
      | (apply retr_transfer_pathOk
         show pathOk (path_build env.cwdMax st.path params).2
         exact pathOk_build _ _ _ h)
      | (apply stor_transfer_pathOk
         show pathOk (path_build env.cwdMax st.path params).2
         exact pathOk_build _ _ _ h)

/-- data_con_close always leaves the data pointer NULL. -/
theorem data_con_close_dataconn (env : Env) (st : FtpState) :
    (data_con_close env st).2.dataconn = false := by
  simp only [data_con_close]
  (repeat' split) <;> simp_all

/-- pasv_con_close does not touch the data pointer. -/
theorem pasv_con_close_dataconn (env : Env) (st : FtpState) :
    (pasv_con_close env st).2.dataconn = st.dataconn := by
  simp only [pasv_con_close]
  (repeat' split) <;> rfl

/-- pasv_con_open does not touch the data pointer. -/
theorem pasv_con_open_dataconn (env : Env) (st : FtpState) :
    (pasv_con_open env st).2.dataconn = st.dataconn := by
  simp only [pasv_con_open]
  (repeat' split) <;> rfl

/-- A failed data_con_open leaves the data pointer as it was. -/
theorem data_con_open_fail_dataconn (env : Env) (st : FtpState)
    (h : (data_con_open env st).1 ≠ .ok) :
    (data_con_open env st).2.dataconn = st.dataconn := by
  revert h
  simp only [data_con_open]
  (repeat' split) <;> intro h <;> first | rfl | exact absurd rfl h

/-- The shared transfer tail leaves the data pointer NULL. -/
theorem retr_tail_dataconn (env : Env) (sent : List Nat) (idx : Nat) (fs : List FsCall)
    (st : FtpState) : (retr_tail env sent idx fs st).st.dataconn = false := by
  simp only [retr_tail]
  (repeat' split) <;> simp [data_con_close_dataconn]

/-- The transfer abort path leaves the data pointer NULL. -/
theorem transfer_bail_dataconn (env : Env) (sent : List Nat) (fs : List FsCall)
    (st : FtpState) : (transfer_bail env sent fs st).st.dataconn = false := by
  simp only [transfer_bail]
  simp [data_con_close_dataconn]

/-- The RETR transfer stage leaves the data pointer NULL on every outcome the
session loop continues after. -/
theorem retr_transfer_conn (env : Env) (fs0 : List FsCall) (st2 : FtpState)
    (hc : st2.dataconn = false)
    (hcont : continues (ftp_cmd_retr_transfer env fs0 st2)) :
    (ftp_cmd_retr_transfer env fs0 st2).st.dataconn = false := by
  revert hcont
  simp only [ftp_cmd_retr_transfer]
  (repeat' split) <;> intro hcont <;>
    first
      | exact retr_tail_dataconn _ _ _ _ _
      | exact transfer_bail_dataconn _ _ _ _
      | exact data_con_close_dataconn _ _
      | (exfalso; simp [continues] at hcont; done)
      | (show (data_con_open env st2).2.dataconn = false
         rw [data_con_open_fail_dataconn _ _ (by assumption)]
         exact hc)

/-- The STOR transfer stage leaves the data pointer NULL on every outcome the
session loop continues after. The 425 branch returns the send result, so it needs
the incoming pointer to be NULL, which holds because its data_con_open failed. -/
theorem stor_transfer_conn (env : Env) (fs0 : List FsCall) (st2 : FtpState)
    (hc : st2.dataconn = false)
    (hcont : continues (ftp_cmd_stor_transfer env fs0 st2)) :
    (ftp_cmd_stor_transfer env fs0 st2).st.dataconn = false := by
  revert hcont
  simp only [ftp_cmd_stor_transfer]
  (repeat' split) <;> intro hcont <;>
    first
      | exact retr_tail_dataconn _ _ _ _ _
      | exact transfer_bail_dataconn _ _ _ _
      | exact data_con_close_dataconn _ _
      | (exfalso; simp [continues] at hcont; done)
      | (show (data_con_open env st2).2.dataconn = false
         rw [data_con_open_fail_dataconn _ _ (by assumption)]
         exact hc)

set_option maxHeartbeats 2000000 in
/-- At every command boundary the session loop continues after, the data
connection pointer is NULL: every handler outcome that reports FTP_RES_OK (or an
undefined result) passes through data_con_close, or never opened the channel. -/
theorem process_conn (env : Env) (st : FtpState) (v : Verb) (params : Str)
    (hc : st.dataconn = false)
    (hcont : continues (ftp_process_command env st v params)) :
    (ftp_process_command env st v params).st.dataconn = false := by
  revert hcont
  cases v <;>
    simp only [ftp_process_command, ftp_cmd_pwd, ftp_cmd_cwd, ftp_cmd_cdup, ftp_cmd_mode,
      ftp_cmd_stru, ftp_cmd_type, ftp_cmd_pasv, ftp_cmd_port, ftp_cmd_list, ftp_cmd_mlsd,
      ftp_cmd_dele, ftp_cmd_noop, ftp_cmd_retr, ftp_cmd_stor, ftp_cmd_mkd, ftp_cmd_rmd,
      ftp_cmd_rnfr, ftp_cmd_rnto, ftp_cmd_feat, ftp_cmd_syst, ftp_cmd_mdtm, ftp_cmd_size,
      ftp_cmd_site, ftp_cmd_stat, ftp_cmd_auth, ftp_cmd_user, ftp_cmd_pass,
      noReply, sendOnly] <;>
    (repeat' split) <;> intro hcont <;>
    first
      | exact hc
      | exact retr_tail_dataconn _ _ _ _ _
      | exact transfer_bail_dataconn _ _ _ _
      | exact data_con_close_dataconn _ _
      | exact (pasv_con_close_dataconn _ _).trans (data_con_close_dataconn _ _)
      | exact (pasv_con_open_dataconn _ _).trans hc
      | (exfalso; simp [continues] at hcont; done)
      | exact retr_transfer_conn _ _ _ hc hcont
      | exact stor_transfer_conn _ _ _ hc hcont

/-- Every reachable session state satisfies the path-shape invariant. -/
theorem reaches_pathOk (s : FtpState) (h : Reaches s) : pathOk s.path := by
  induction h with
  | start => exact ⟨by simp [ftp_init_state], rfl⟩
  | step s env v params _ _ ih => exact process_pathOk env s v params ih

/-- Amended C4: for every session state reachable from session start and every
command line, after any handler call that returns success the cwd is non-empty and
its first character is the slash. (The original third conjunct — no trailing slash
when longer than one character — fails, see the counterexample: path_build strips
only a single trailing slash, so parameters containing slashes can leave one.) -/
theorem handler_success_path_shape (env : Env) (s : FtpState) (v : Verb) (params : Str)
    (hr : Reaches s) (hok : (ftp_process_command env s v params).res = some .ok) :
    (ftp_process_command env s v params).st.path ≠ [] ∧
    (ftp_process_command env s v params).st.path.head? = some SLASH :=
  process_pathOk env s v params (reaches_pathOk s hr)

/-- Witness for the amended C4 at a concrete run: a successful CWD a from the
logged-in session leaves the non-empty slash-headed cwd /a. -/
theorem handler_success_path_shape_witness :
    Reaches stLoggedIn ∧
    (ftp_process_command envOkBase stLoggedIn .cwd [97]).res = some .ok ∧
    ((ftp_process_command envOkBase stLoggedIn .cwd [97]).st.path ≠ [] ∧
      (ftp_process_command envOkBase stLoggedIn .cwd [97]).st.path.head? = some SLASH) :=
  ⟨reaches_stLoggedIn, by decide,
    handler_success_path_shape envOkBase stLoggedIn .cwd [97] reaches_stLoggedIn (by decide)⟩

/-- Every reachable command-boundary state has a NULL data connection pointer. -/
theorem reaches_dataconn_false (s : FtpState) (h : Reaches s) : s.dataconn = false := by
  induction h with
  | start => rfl
  | step s env v params _ hcont ih => exact process_conn env s v params ih hcont

/-- Amended C5: in every session state reachable by any sequence of commands from
session start, data_mode = NOT_SET implies data_conn = null (the spec's one-way
invariant). The converse fails: see the PASV counterexample. -/
theorem notSet_implies_dataconn_null (s : FtpState) (hr : Reaches s)
    (hm : s.dcm = .notSet) : s.dataconn = false :=
  reaches_dataconn_false s hr

/-- Witness for the amended C5 at the freshly started session, a reachable state
whose mode is NOT_SET and whose data pointer is NULL. -/
theorem notSet_implies_dataconn_null_witness :
    Reaches ftp_init_state ∧ ftp_init_state.dcm = .notSet ∧
    ftp_init_state.dataconn = false :=
  ⟨Reaches.start, by decide, notSet_implies_dataconn_null ftp_init_state Reaches.start (by decide)⟩

/-! ## C8: round trip of the date/time codec -/

/-- Bit access commutes with division by a power of two. -/
theorem testBit_div_pow (x n i : Nat) : (x / 2 ^ n).testBit i = x.testBit (n + i) := by
  simp [Nat.testBit_to_div_mod, Nat.div_div_eq_div_mul, ← Nat.pow_add]

/-- Masking a bit field and shifting it down reads the field:
`(x &&& (2^m - 1) <<< n) >>> n = x / 2^n % 2^m`. -/
theorem and_mask_shiftRight (x n m : Nat) :
    (x &&& (2 ^ m - 1) <<< n) >>> n = x / 2 ^ n % 2 ^ m := by
  apply Nat.eq_of_testBit_eq
  intro i
  rw [Nat.testBit_shiftRight, Nat.testBit_and, Nat.testBit_shiftLeft,
    Nat.testBit_mod_two_pow, Nat.testBit_two_pow_sub_one, testBit_div_pow]
  by_cases him : i < m
  · simp [him, Nat.le_add_right, Bool.and_comm]
  · simp [him, Nat.le_add_right]

/-- Bitwise or of a shifted value onto a small value is addition:
`a ||| b <<< k = 2^k * b + a` when `a < 2^k`. -/
theorem lor_shiftLeft_eq_add (a b k : Nat) (h : a < 2 ^ k) :
    a ||| b <<< k = 2 ^ k * b + a := by
  apply Nat.eq_of_testBit_eq
  intro i
  rw [Nat.testBit_lor, Nat.testBit_shiftLeft]
  rcases Nat.lt_or_ge i k with hik | hik
  · have h1 : decide (k ≤ i) = false := by simp [Nat.not_le.mpr hik]
    rw [h1, Bool.false_and, Bool.or_false]
    rw [Nat.testBit_to_div_mod, Nat.testBit_to_div_mod]
    have e2 : (2 ^ k * b + a) / 2 ^ i = 2 ^ (k - i) * b + a / 2 ^ i := by
      have e3 : (2 : Nat) ^ k = 2 ^ i * 2 ^ (k - i) := by
        rw [← pow_add]
        congr 1
        omega
      rw [e3, Nat.mul_assoc, Nat.mul_add_div (Nat.two_pow_pos i)]
    rw [e2]
    have h2' : 2 ^ (k - i) * b % 2 = 0 :=
      Nat.mod_eq_zero_of_dvd ((dvd_pow_self 2 (by omega : k - i ≠ 0)).mul_right b)
    simp [Nat.add_mod, h2']
  · have h2 : a.testBit i = false :=
      Nat.testBit_lt_two_pow (lt_of_lt_of_le h (Nat.pow_le_pow_right (by norm_num) hik))
    rw [h2, Bool.false_or]
    have h3 : decide (k ≤ i) = true := by simp [hik]
    rw [h3, Bool.true_and]
    rw [Nat.testBit_to_div_mod, Nat.testBit_to_div_mod]
    have e5 : (2 ^ k * b + a) / 2 ^ i = b / 2 ^ (i - k) := by
      have e6 : (2 : Nat) ^ i = 2 ^ k * 2 ^ (i - k) := by
        rw [← pow_add]
        congr 1
        omega
      rw [e6, ← Nat.div_div_eq_div_mul, Nat.mul_add_div (Nat.two_pow_pos k),
        Nat.div_eq_of_lt h, Nat.add_zero]
    rw [e5]

/-- Value of a two-digit zero-padded field under the digit-run parser. -/
theorem atoiDigits_two (a b : Nat) (ha : a ≤ 9) (hb : b ≤ 9) :
    atoiDigits [48 + a, 48 + b] = 10 * a + b := by
  have h1 : isdigitB (48 + a) = true := by simp [isdigitB]; omega
  have h2 : isdigitB (48 + b) = true := by simp [isdigitB]; omega
  simp [atoiDigits, atoiDigits_go, h1, h2]
  omega

/-- Value of a four-digit zero-padded field under the digit-run parser. -/
theorem atoiDigits_four (a b c e : Nat) (ha : a ≤ 9) (hb : b ≤ 9) (hc : c ≤ 9)
    (he : e ≤ 9) :
    atoiDigits [48 + a, 48 + b, 48 + c, 48 + e] = 1000 * a + 100 * b + 10 * c + e := by
  have h1 : isdigitB (48 + a) = true := by simp [isdigitB]; omega
  have h2 : isdigitB (48 + b) = true := by simp [isdigitB]; omega
  have h3 : isdigitB (48 + c) = true := by simp [isdigitB]; omega
  have h4 : isdigitB (48 + e) = true := by simp [isdigitB]; omega
  simp [atoiDigits, atoiDigits_go, h1, h2, h3, h4]
  omega

/-- Decoding a buffer of 14 digit bytes followed by a space: the guards of
date_time_get pass and the fields are the decimal values of the slices. -/
theorem date_time_get_digits (a1 a2 a3 a4 b1 b2 c1 c2 e1 e2 f1 f2 g1 g2 : Nat)
    (ha1 : a1 ≤ 9) (ha2 : a2 ≤ 9) (ha3 : a3 ≤ 9) (ha4 : a4 ≤ 9)
    (hb1 : b1 ≤ 9) (hb2 : b2 ≤ 9) (hc1 : c1 ≤ 9) (hc2 : c2 ≤ 9)
    (he1 : e1 ≤ 9) (he2 : e2 ≤ 9) (hf1 : f1 ≤ 9) (hf2 : f2 ≤ 9)
    (hg1 : g1 ≤ 9) (hg2 : g2 ≤ 9) :
    date_time_get [48 + a1, 48 + a2, 48 + a3, 48 + a4, 48 + b1, 48 + b2,
        48 + c1, 48 + c2, 48 + e1, 48 + e2, 48 + f1, 48 + f2, 48 + g1, 48 + g2, SPACE] =
    (15,
     ((((10 * c1 + c2) % 65536) ||| ((10 * b1 + b2) <<< 5)) % 65536 |||
       (((1000 * a1 + 100 * a2 + 10 * a3 + a4) - 1980) <<< 9)) % 65536,
     ((((10 * g1 + g2) >>> 1) % 65536 ||| ((10 * f1 + f2) <<< 5)) % 65536 |||
       ((10 * e1 + e2) <<< 11)) % 65536) := by
  have dig : ∀ x : Nat, x ≤ 9 → isdigitB (48 + x) = true := by
    intro x hx
    simp [isdigitB]
    omega
  unfold date_time_get
  rw [if_neg (by simp)]
  rw [if_neg (by simp [SPACE])]
  rw [if_neg (by
    simp only [List.take, List.all_cons, List.all_nil,
      dig _ ha1, dig _ ha2, dig _ ha3, dig _ ha4, dig _ hb1, dig _ hb2,
      dig _ hc1, dig _ hc2, dig _ he1, dig _ he2, dig _ hf1, dig _ hf2,
      dig _ hg1, dig _ hg2]
    simp)]
  simp only []
  rw [show (([48 + a1, 48 + a2, 48 + a3, 48 + a4, 48 + b1, 48 + b2, 48 + c1, 48 + c2, 48 + e1, 48 + e2, 48 + f1, 48 + f2, 48 + g1, 48 + g2, SPACE] : Str).drop 12).take 2 = [48 + g1, 48 + g2] from rfl]
  rw [show (([48 + a1, 48 + a2, 48 + a3, 48 + a4, 48 + b1, 48 + b2, 48 + c1, 48 + c2, 48 + e1, 48 + e2, 48 + f1, 48 + f2, 48 + g1, 48 + g2, SPACE] : Str).drop 10).take 2 = [48 + f1, 48 + f2] from rfl]
  rw [show (([48 + a1, 48 + a2, 48 + a3, 48 + a4, 48 + b1, 48 + b2, 48 + c1, 48 + c2, 48 + e1, 48 + e2, 48 + f1, 48 + f2, 48 + g1, 48 + g2, SPACE] : Str).drop 8).take 2 = [48 + e1, 48 + e2] from rfl]
  rw [show (([48 + a1, 48 + a2, 48 + a3, 48 + a4, 48 + b1, 48 + b2, 48 + c1, 48 + c2, 48 + e1, 48 + e2, 48 + f1, 48 + f2, 48 + g1, 48 + g2, SPACE] : Str).drop 6).take 2 = [48 + c1, 48 + c2] from rfl]
  rw [show (([48 + a1, 48 + a2, 48 + a3, 48 + a4, 48 + b1, 48 + b2, 48 + c1, 48 + c2, 48 + e1, 48 + e2, 48 + f1, 48 + f2, 48 + g1, 48 + g2, SPACE] : Str).drop 4).take 2 = [48 + b1, 48 + b2] from rfl]
  rw [show ([48 + a1, 48 + a2, 48 + a3, 48 + a4, 48 + b1, 48 + b2, 48 + c1, 48 + c2, 48 + e1, 48 + e2, 48 + f1, 48 + f2, 48 + g1, 48 + g2, SPACE] : Str).take 4 = [48 + a1, 48 + a2, 48 + a3, 48 + a4] from rfl]
  rw [atoiDigits_two g1 g2 hg1 hg2, atoiDigits_two f1 f2 hf1 hf2,
    atoiDigits_two e1 e2 he1 he2, atoiDigits_two c1 c2 hc1 hc2,
    atoiDigits_two b1 b2 hb1 hb2, atoiDigits_four a1 a2 a3 a4 ha1 ha2 ha3 ha4]





/-- C8: the 14-digit string the encoder produces for any 16-bit FAT pair, with the
required trailing space appended, decodes back to exactly that pair with consumed
length 15. -/
theorem date_codec_roundtrip (d t : Nat) (hd : d < 65536) (ht : t < 65536) :
    date_time_get (data_time_to_str d t ++ [SPACE]) = (15, d, t) := by
  have em7 : (0xFE00 : Nat) = (2 ^ 7 - 1) <<< 9 := by norm_num [Nat.shiftLeft_eq]
  have em4 : (0x01E0 : Nat) = (2 ^ 4 - 1) <<< 5 := by norm_num [Nat.shiftLeft_eq]
  have em5t : (0xF800 : Nat) = (2 ^ 5 - 1) <<< 11 := by norm_num [Nat.shiftLeft_eq]
  have em6 : (0x07E0 : Nat) = (2 ^ 6 - 1) <<< 5 := by norm_num [Nat.shiftLeft_eq]
  have e31 : (0x001F : Nat) = 2 ^ 5 - 1 := by norm_num
  have hy : (d &&& 0xFE00) >>> 9 = d / 512 := by
    rw [em7, and_mask_shiftRight]
    norm_num
    omega
  have hmo : (d &&& 0x01E0) >>> 5 = d / 32 % 16 := by
    rw [em4, and_mask_shiftRight]
    norm_num
  have hdd : d &&& 0x001F = d % 32 := by
    rw [e31, Nat.and_pow_two_sub_one_eq_mod]
  have hhh : (t &&& 0xF800) >>> 11 = t / 2048 := by
    rw [em5t, and_mask_shiftRight]
    norm_num
    omega
  have hmi : (t &&& 0x07E0) >>> 5 = t / 32 % 64 := by
    rw [em6, and_mask_shiftRight]
    norm_num
  have hss : (t &&& 0x001F) <<< 1 = (t % 32) * 2 := by
    rw [e31, Nat.and_pow_two_sub_one_eq_mod, Nat.shiftLeft_eq]
  have henc : data_time_to_str d t ++ [SPACE] =
      [48 + (d / 512 + 1980) / 1000, 48 + (d / 512 + 1980) / 100 % 10,
       48 + (d / 512 + 1980) / 10 % 10, 48 + (d / 512 + 1980) % 10,
       48 + (d / 32 % 16) / 10, 48 + (d / 32 % 16) % 10,
       48 + (d % 32) / 10, 48 + (d % 32) % 10,
       48 + (t / 2048) / 10, 48 + (t / 2048) % 10,
       48 + (t / 32 % 64) / 10, 48 + (t / 32 % 64) % 10,
       48 + ((t % 32) * 2) / 10, 48 + ((t % 32) * 2) % 10, SPACE] := by
    simp only [data_time_to_str, pad4, pad2, hy, hmo, hdd, hhh, hmi, hss,
      List.cons_append, List.nil_append]
  rw [henc]
  clear em7 em4 em5t em6 e31 hy hmo hdd hhh hmi hss henc
  rw [date_time_get_digits _ _ _ _ _ _ _ _ _ _ _ _ _ _
    (by omega) (by omega) (by omega) (by omega) (by omega) (by omega) (by omega)
    (by omega) (by omega) (by omega) (by omega) (by omega) (by omega) (by omega)]
  have hv6 : 1000 * ((d / 512 + 1980) / 1000) + 100 * ((d / 512 + 1980) / 100 % 10) +
      10 * ((d / 512 + 1980) / 10 % 10) + (d / 512 + 1980) % 10 = d / 512 + 1980 := by omega
  have hv1 : 10 * ((d % 32) / 10) + (d % 32) % 10 = d % 32 := by omega
  have hv2 : 10 * ((d / 32 % 16) / 10) + (d / 32 % 16) % 10 = d / 32 % 16 := by omega
  have hv3 : 10 * ((t / 2048) / 10) + (t / 2048) % 10 = t / 2048 := by omega
  have hv4 : 10 * ((t / 32 % 64) / 10) + (t / 32 % 64) % 10 = t / 32 % 64 := by omega
  have hv5 : 10 * (((t % 32) * 2) / 10) + ((t % 32) * 2) % 10 = (t % 32) * 2 := by omega
  rw [hv1, hv2, hv3, hv4, hv5, hv6]
  clear hv1 hv2 hv3 hv4 hv5 hv6
  have lor5 : ∀ a b : Nat, a < 32 → a ||| b <<< 5 = 32 * b + a := by
    intro a b hab
    have h0 := lor_shiftLeft_eq_add a b 5 (by norm_num [hab])
    norm_num at h0
    exact h0
  have lor9 : ∀ a b : Nat, a < 512 → a ||| b <<< 9 = 512 * b + a := by
    intro a b hab
    have h0 := lor_shiftLeft_eq_add a b 9 (by norm_num [hab])
    norm_num at h0
    exact h0
  have lor11 : ∀ a b : Nat, a < 2048 → a ||| b <<< 11 = 2048 * b + a := by
    intro a b hab
    have h0 := lor_shiftLeft_eq_add a b 11 (by norm_num [hab])
    norm_num at h0
    exact h0
  have e1980 : d / 512 + 1980 - 1980 = d / 512 := by omega
  have esh : (t % 32 * 2) >>> 1 = t % 32 := by
    rw [Nat.shiftRight_eq_div_pow, pow_one]
    omega
  have emod1 : d % 32 % 65536 = d % 32 := by omega
  have emod2 : t % 32 % 65536 = t % 32 := by omega
  rw [e1980, esh, emod1, emod2]
  rw [lor5 (d % 32) (d / 32 % 16) (by omega)]
  rw [Nat.mod_eq_of_lt (show 32 * (d / 32 % 16) + d % 32 < 65536 by omega)]
  rw [lor9 _ _ (by omega : 32 * (d / 32 % 16) + d % 32 < 512)]
  rw [lor5 (t % 32) (t / 32 % 64) (by omega)]
  rw [Nat.mod_eq_of_lt (show 32 * (t / 32 % 64) + t % 32 < 65536 by omega)]
  rw [lor11 _ _ (by omega : 32 * (t / 32 % 64) + t % 32 < 2048)]
  clear lor5 lor9 lor11 e1980 esh emod1 emod2
  simp only [Prod.mk.injEq]
  exact ⟨trivial, by omega, by omega⟩

/-- Witness for C8 at the concrete pair (20513, 24576), i.e. 2020-01-01 12:00:00. -/
theorem date_codec_roundtrip_witness :
    (20513 < 65536 ∧ 24576 < 65536) ∧
    date_time_get (data_time_to_str 20513 24576 ++ [SPACE]) = (15, 20513, 24576) :=
  ⟨⟨by norm_num, by norm_num⟩, date_codec_roundtrip 20513 24576 (by norm_num) (by norm_num)⟩

/-! ## C1: STOR file content versus the received byte stream -/

/-- Coalescing invariant of the STOR loop when every write succeeds and no segment
exceeds the buffer capacity: flushed chunks plus the pending buffer always equal the
bytes consumed so far. -/
theorem stor_segs_content (B : Nat) (segs : List (List Nat)) :
    ∀ st : StorSt, (∀ s ∈ segs, s.length ≤ B) →
    (stor_segs B (fun _ => true) st segs).1.writes.flatten ++
      (stor_segs B (fun _ => true) st segs).1.buf
      = st.writes.flatten ++ st.buf ++ segs.flatten := by
  induction segs with
  | nil =>
    intro st _
    simp [stor_segs]
  | cons seg rest ih =>
    intro st h
    have hseg : ¬ (seg.length > B) := by
      have := h seg (by simp)
      omega
    have hrest : ∀ s ∈ rest, s.length ≤ B := fun s hs => h s (by simp [hs])
    by_cases hfree : B - st.buf.length > seg.length
    · have estep : stor_seg B (fun _ => true) st seg =
          ({ st with buf := st.buf ++ seg }, false) := by
        simp [stor_seg, hseg, hfree]
      simp only [stor_segs, estep, if_neg (by simp : ¬ (false = true))]
      rw [ih _ hrest]
      simp [List.append_assoc]
    · have estep : stor_seg B (fun _ => true) st seg =
          (⟨seg.drop (B - st.buf.length),
            st.writes ++ [st.buf ++ seg.take (B - st.buf.length)]⟩, false) := by
        simp [stor_seg, hseg, hfree]
      simp only [stor_segs, estep, if_neg (by simp : ¬ (false = true))]
      rw [ih _ hrest]
      simp [List.append_assoc, List.flatten_append]


/-- Amended C1: when every received segment fits in the transfer buffer (length at
most FTP_BUF_SIZE) and every write succeeds, the stored file equals the
concatenation of the received segments in order. -/
theorem stor_file_eq_stream (B : Nat) (segs : List (List Nat))
    (h : ∀ s ∈ segs, s.length ≤ B) : stor_file B segs = segs.flatten := by
  unfold stor_file
  rw [stor_segs_content B segs stor_init h]
  simp [stor_init]

theorem stor_file_eq_stream_witness :
    (∀ s ∈ ([[1, 2, 3], [4, 5]] : List (List Nat)), s.length ≤ 4) ∧
    stor_file 4 [[1, 2, 3], [4, 5]] = ([[1, 2, 3], [4, 5]] : List (List Nat)).flatten :=
  ⟨by decide, stor_file_eq_stream 4 [[1, 2, 3], [4, 5]] (by decide)⟩

/-- C1 is false of the code as stated: a segment longer than FTP_BUF_SIZE takes the
bypass branch (ftp_server.c:941-949) and is flushed ahead of the bytes already
pending in the buffer, so the file is not the concatenation of the received
segments in order. With segments [0] then replicate (FTP_BUF_SIZE+1) 1, the file
starts with 1 while the stream starts with 0. -/
theorem stor_bypass_reorders :
    stor_file FTP_BUF_SIZE [[0], List.replicate (FTP_BUF_SIZE + 1) 1] =
      List.replicate (FTP_BUF_SIZE + 1) 1 ++ [0] ∧
    ([[0], List.replicate (FTP_BUF_SIZE + 1) 1] : List (List Nat)).flatten =
      [0] ++ List.replicate (FTP_BUF_SIZE + 1) 1 ∧
    stor_file FTP_BUF_SIZE [[0], List.replicate (FTP_BUF_SIZE + 1) 1] ≠
      ([[0], List.replicate (FTP_BUF_SIZE + 1) 1] : List (List Nat)).flatten := by
  have hB : FTP_BUF_SIZE = 32768 := rfl
  have e1 : stor_seg FTP_BUF_SIZE (fun _ => true) stor_init [0] = (⟨[0], []⟩, false) := by
    simp only [stor_seg, stor_init, List.length_cons, List.length_nil]
    rw [if_neg (by rw [hB]; omega), if_pos (by rw [hB]; omega)]
    rfl
  have e2 : stor_seg FTP_BUF_SIZE (fun _ => true) ⟨[0], []⟩
      (List.replicate (FTP_BUF_SIZE + 1) 1) =
      (⟨[0], [List.replicate (FTP_BUF_SIZE + 1) 1]⟩, false) := by
    simp only [stor_seg, List.length_replicate]
    rw [if_pos (by omega : FTP_BUF_SIZE + 1 > FTP_BUF_SIZE)]
    rw [if_pos trivial]
    rfl
  have efile : stor_file FTP_BUF_SIZE [[0], List.replicate (FTP_BUF_SIZE + 1) 1] =
      List.replicate (FTP_BUF_SIZE + 1) 1 ++ [0] := by
    unfold stor_file
    simp only [stor_segs, e1, e2, if_neg (by simp : ¬ (false = true))]
    simp only [List.flatten_cons, List.flatten_nil, List.append_nil]
  refine ⟨efile, by simp, ?_⟩
  rw [efile]
  intro hcontra
  have h1 : (List.replicate (FTP_BUF_SIZE + 1) 1 ++ [0] : List Nat).head? = some 1 := by
    rw [hB]
    rfl
  rw [List.flatten_cons, List.flatten_cons, List.flatten_nil, List.append_nil] at hcontra
  rw [hcontra] at h1
  simp at h1

/-! ## C9: concrete STOR scenario, 2600 bytes as segments of 900, 800, 900 -/

theorem stor_seg_append_case (B : Nat) (wok : Nat → Bool) (buf seg : List Nat)
    (ws : List (List Nat))
    (h1 : ¬ seg.length > B) (h2 : B - buf.length > seg.length) :
    stor_seg B wok ⟨buf, ws⟩ seg = (⟨buf ++ seg, ws⟩, false) := by
  simp only [stor_seg]
  rw [if_neg h1, if_pos h2]

theorem stor_seg_flush_case (B : Nat) (wok : Nat → Bool) (buf seg : List Nat)
    (ws : List (List Nat))
    (h1 : ¬ seg.length > B) (h2 : ¬ B - buf.length > seg.length)
    (h3 : wok ws.length = true) :
    stor_seg B wok ⟨buf, ws⟩ seg =
      (⟨seg.drop (B - buf.length), ws ++ [buf ++ seg.take (B - buf.length)]⟩, false) := by
  simp only [stor_seg]
  rw [if_neg h1, if_neg h2, if_pos h3]

/-- C9: with buffer capacity B = 1024, a STOR receiving a 2600-byte payload as the
segment sequence of lengths 900, 800, 900 performs exactly two file writes of 1024
bytes each (payload offsets 0..1023 and 1024..2047), leaves a 552-byte pending
buffer flushed on connection close, and the stored file equals the payload. -/
theorem stor_900_800_900 (p : List Nat) (h : p.length = 2600) :
    (stor_segs 1024 (fun _ => true) stor_init
        [p.take 900, (p.drop 900).take 800, (p.drop 1700).take 900]).1.writes
      = [p.take 1024, (p.drop 1024).take 1024] ∧
    (stor_segs 1024 (fun _ => true) stor_init
        [p.take 900, (p.drop 900).take 800, (p.drop 1700).take 900]).1.buf
      = p.drop 2048 ∧
    (p.take 1024).length = 1024 ∧
    ((p.drop 1024).take 1024).length = 1024 ∧
    (p.drop 2048).length = 552 ∧
    stor_file 1024 [p.take 900, (p.drop 900).take 800, (p.drop 1700).take 900] = p := by
  have l1 : (p.take 900).length = 900 := by rw [List.length_take, h]; omega
  have l2 : ((p.drop 900).take 800).length = 800 := by
    rw [List.length_take, List.length_drop, h]; omega
  have l3 : ((p.drop 1700).take 900).length = 900 := by
    rw [List.length_take, List.length_drop, h]; omega
  have e1 : stor_seg 1024 (fun _ => true) stor_init (p.take 900) =
      (⟨p.take 900, []⟩, false) := by
    rw [show stor_init = (⟨[], []⟩ : StorSt) from rfl]
    rw [stor_seg_append_case 1024 _ [] (p.take 900) [] (by omega)
      (by simp only [List.length_nil]; omega)]
    rfl
  have w1 : p.take 900 ++ ((p.drop 900).take 800).take (1024 - (p.take 900).length)
      = p.take 1024 := by
    rw [l1]
    rw [show (1024 - 900 : Nat) = 124 from rfl, List.take_take]
    rw [show min 124 800 = 124 from rfl]
    rw [show (1024 : Nat) = 900 + 124 from rfl, List.take_add]
  have b2 : ((p.drop 900).take 800).drop (1024 - (p.take 900).length)
      = (p.drop 1024).take 676 := by
    rw [l1]
    rw [show (1024 - 900 : Nat) = 124 from rfl, List.drop_take, List.drop_drop]
  have e2 : stor_seg 1024 (fun _ => true) ⟨p.take 900, []⟩ ((p.drop 900).take 800) =
      (⟨(p.drop 1024).take 676, [p.take 1024]⟩, false) := by
    rw [stor_seg_flush_case 1024 _ (p.take 900) ((p.drop 900).take 800) []
      (by omega) (by omega) rfl]
    rw [w1, b2]
    rfl
  have l4 : ((p.drop 1024).take 676).length = 676 := by
    rw [List.length_take, List.length_drop, h]; omega
  have w2 : (p.drop 1024).take 676 ++
      ((p.drop 1700).take 900).take (1024 - ((p.drop 1024).take 676).length)
      = (p.drop 1024).take 1024 := by
    rw [l4]
    rw [show (1024 - 676 : Nat) = 348 from rfl, List.take_take]
    rw [show min 348 900 = 348 from rfl]
    rw [show (1024 : Nat) = 676 + 348 from rfl, List.take_add, List.drop_drop]
  have b3 : ((p.drop 1700).take 900).drop (1024 - ((p.drop 1024).take 676).length)
      = p.drop 2048 := by
    rw [l4]
    rw [show (1024 - 676 : Nat) = 348 from rfl, List.drop_take, List.drop_drop]
    rw [List.take_of_length_le (by rw [List.length_drop, h])]
  have e3 : stor_seg 1024 (fun _ => true) ⟨(p.drop 1024).take 676, [p.take 1024]⟩
      ((p.drop 1700).take 900) =
      (⟨p.drop 2048, [p.take 1024, (p.drop 1024).take 1024]⟩, false) := by
    rw [stor_seg_flush_case 1024 _ ((p.drop 1024).take 676) ((p.drop 1700).take 900)
      [p.take 1024] (by omega) (by omega) rfl]
    rw [w2, b3]
    rfl
  have esegs : stor_segs 1024 (fun _ => true) stor_init
      [p.take 900, (p.drop 900).take 800, (p.drop 1700).take 900]
      = (⟨p.drop 2048, [p.take 1024, (p.drop 1024).take 1024]⟩, false) := by
    simp only [stor_segs, e1, e2, e3, if_neg (by simp : ¬ (false = true))]
  refine ⟨by rw [esegs], by rw [esegs], by rw [List.length_take, h]; omega,
    by rw [List.length_take, List.length_drop, h]; omega,
    by rw [List.length_drop, h], ?_⟩
  unfold stor_file
  rw [esegs]
  show (p.take 1024 ++ ((p.drop 1024).take 1024 ++ [])) ++ p.drop 2048 = p
  rw [List.append_nil, List.append_assoc,
    show (2048 : Nat) = 1024 + 1024 from rfl, ← List.drop_drop,
    List.take_append_drop, List.take_append_drop]


theorem stor_900_800_900_witness :
    (List.range 2600).length = 2600 ∧
    stor_file 1024 [(List.range 2600).take 900, ((List.range 2600).drop 900).take 800,
      ((List.range 2600).drop 1700).take 900] = List.range 2600 :=
  ⟨by simp, (stor_900_800_900 (List.range 2600) (by simp)).2.2.2.2.2⟩

end FtpServer
